import Mathlib

/-!
# Verification of the facturas-extractor extraction pipeline

Shallow embedding of the invoice-field extraction code (`main.py` and the
`providers/` package) and proofs about it.

Modelling conventions:
* Python strings are `List Char` (`PyStr`); string literals enter through
  `pys` which unfolds a Lean string literal into its character list.
* Python floats are modelled as exact rationals (`ℚ`); `round(x, n)` is
  modelled as decimal rounding with ties to even (`pyRound`), and
  `float(str)` as an exact decimal/scientific-notation parser (`pyFloat`;
  the `inf`/`nan`/underscore forms of Python's grammar are outside the
  modelled fragment and map to `none`).
* Fallible code returns `Option`.
-/

set_option maxRecDepth 20000

/- Batteries marks the arithmetic on `Rat` `@[irreducible]`, which blocks
`decide`-style evaluation of concrete rationals; restore the default
reducibility (the kernel re-checks every proof regardless). -/
set_option allowUnsafeReducibility true in
attribute [semireducible] Rat.mul Rat.inv Rat.add Rat.sub Rat.ofScientific

namespace Facturas

/-- Python strings are modelled as lists of characters. -/
abbrev PyStr := List Char

/-- Turn a Lean string literal into the corresponding `PyStr`. -/
def pys (s : String) : PyStr := s.data

/-- The whitespace characters recognised by Python's `str.strip()`
(restricted to the characters that can appear in this development). -/
def pySpace (c : Char) : Bool :=
  c = ' ' || c = '\t' || c = '\n' || c = '\r' || c = '\x0b' || c = '\x0c' || c = '\xa0'

/-- Python `str.strip()`. -/
def pyStrip (s : PyStr) : PyStr :=
  ((s.dropWhile pySpace).reverse.dropWhile pySpace).reverse

/-- Python `st.replace(c, "")` for a single character `c`. -/
def removeChar (c : Char) (s : PyStr) : PyStr :=
  s.filter (fun x => !(x == c))

/-- Python `st.replace("EUR", "")` (left-to-right scan, as `str.replace`). -/
def removeEUR : PyStr → PyStr
  | 'E' :: 'U' :: 'R' :: rest => removeEUR rest
  | c :: rest => c :: removeEUR rest
  | [] => []

/-- Python `st.replace(a, b)` for single characters. -/
def replaceChar (a b : Char) (s : PyStr) : PyStr :=
  s.map (fun c => if c == a then b else c)

/-- Numeric value of a list of decimal digits (most significant first). -/
def digitsToNat (ds : PyStr) : ℕ :=
  ds.foldl (fun a c => 10 * a + (c.toNat - 48)) 0

/-- Unsigned part of Python's `float()` grammar:
`digits [ "." digits ] [ ("e"|"E") [sign] digits ]`, where at least one
digit must appear around the decimal point.  Returns the exact rational. -/
def parseUnsignedFloat (s : PyStr) : Option ℚ :=
  let intPart := s.takeWhile Char.isDigit
  let rest1 := s.dropWhile Char.isDigit
  let fracPart :=
    match rest1 with
    | '.' :: r => r.takeWhile Char.isDigit
    | _ => []
  let rest2 :=
    match rest1 with
    | '.' :: r => r.dropWhile Char.isDigit
    | _ => rest1
  if intPart.isEmpty && fracPart.isEmpty then none
  else
    let mant : ℚ := (digitsToNat intPart : ℚ) + (digitsToNat fracPart : ℚ) / (10 ^ fracPart.length)
    match rest2 with
    | [] => some mant
    | e :: r =>
      if e == 'e' || e == 'E' then
        let sgn : ℤ := match r with | '-' :: _ => -1 | _ => 1
        let r2 : PyStr := match r with | '+' :: t => t | '-' :: t => t | t => t
        let ds := r2.takeWhile Char.isDigit
        if ds.isEmpty || !(r2.dropWhile Char.isDigit).isEmpty then none
        else some (mant * (10 : ℚ) ^ (sgn * (digitsToNat ds : ℤ)))
      else none

/-- Python `float(st)` on a string (exact-rational model; strips surrounding
whitespace and handles an optional sign, like the CPython parser). -/
def pyFloat (s : PyStr) : Option ℚ :=
  match pyStrip s with
  | '+' :: r => parseUnsignedFloat r
  | '-' :: r => (parseUnsignedFloat r).map Neg.neg
  | t => parseUnsignedFloat t

/-- Round a rational to the nearest integer, ties to even
(the rounding used by Python's builtin `round`). -/
def pyRoundHalfEven (q : ℚ) : ℤ :=
  let f := ⌊q⌋
  if q - f < 1 / 2 then f
  else if 1 / 2 < q - f then f + 1
  else if 2 ∣ f then f else f + 1

/-- Python `round(q, ndigits)` (decimal model of float rounding). -/
def pyRound (ndigits : ℕ) (q : ℚ) : ℚ :=
  (pyRoundHalfEven (q * 10 ^ ndigits) : ℚ) / 10 ^ ndigits

/-!
## Normalization utilities

`norm_num` and `to_decimal_pct` as written in `main.py` (lines 220–252);
the copies in `providers/common.py` (lines 91–123) are textually identical
up to the spelling of the non-breaking-space literal.
-/

/-- `main.py` `norm_num`: strip, remove currency symbols and `%`, decide the
decimal separator, and parse.  When both `,` and `.` occur, every `.` is
removed and `,` becomes the decimal point. -/
def norm_num (s : Option PyStr) : Option ℚ :=
  match s with
  | none => none
  | some s0 =>
    let st := pyStrip s0
    if st.isEmpty then none
    else
      let st := removeChar '€' st
      let st := removeEUR st
      let st := removeChar ' ' st
      let st := removeChar '\xa0' st
      let st := removeChar '%' st
      let st :=
        if st.contains ',' && st.contains '.' then
          replaceChar ',' '.' (removeChar '.' st)
        else if st.contains ',' then
          replaceChar ',' '.' st
        else st
      pyFloat st

/-- `main.py` `to_decimal_pct`: a float input is divided by 100 when `> 1.0`
and rounded to 6 decimals; a string input is stripped of spaces and a
trailing `%`, comma-normalised, parsed, and treated the same way. -/
def to_decimal_pct (s : Option (ℚ ⊕ PyStr)) : Option ℚ :=
  match s with
  | none => none
  | some (.inl q) => some (if 1 < q then pyRound 6 (q / 100) else pyRound 6 q)
  | some (.inr s0) =>
    let st := removeChar '\xa0' (removeChar ' ' (pyStrip s0))
    let st := if st.getLast? = some '%' then st.dropLast else st
    let st := replaceChar ',' '.' st
    match pyFloat st with
    | none => none
    | some val => some (if 1 < val then pyRound 6 (val / 100) else pyRound 6 val)

/-!
## Basic lemmas about the string utilities
-/

theorem dropWhile_eq_self_of_head {p : Char → Bool} {s : PyStr}
    (h : ∀ c ∈ s, p c = false) : s.dropWhile p = s := by
  cases s with
  | nil => rfl
  | cons a l =>
    have ha := h a (by simp)
    simp [List.dropWhile, ha]

theorem pyStrip_eq_self {s : PyStr} (h : ∀ c ∈ s, pySpace c = false) :
    pyStrip s = s := by
  unfold pyStrip
  rw [dropWhile_eq_self_of_head h,
      dropWhile_eq_self_of_head (fun c hc => h c (List.mem_reverse.mp hc)),
      List.reverse_reverse]

theorem removeChar_eq_self {c : Char} {s : PyStr} (h : ∀ x ∈ s, x ≠ c) :
    removeChar c s = s := by
  unfold removeChar
  rw [List.filter_eq_self]
  intro a ha
  simpa using h a ha

theorem removeEUR_cons_of_ne {a : PyStr} {c : Char} (hc : c ≠ 'E') :
    removeEUR (c :: a) = c :: removeEUR a := by
  rw [removeEUR.eq_def]
  split
  · rename_i heq; injection heq with h1 _; exact absurd h1 hc
  · rename_i _ heq; injection heq with h1 h2; subst h1; subst h2; rfl
  · rename_i heq; injection heq

theorem removeEUR_eq_self {s : PyStr} (h : ∀ x ∈ s, x ≠ 'E') :
    removeEUR s = s := by
  induction s with
  | nil => rfl
  | cons a l ih =>
    rw [removeEUR_cons_of_ne (h a (by simp)), ih (fun x hx => h x (by simp [hx]))]

theorem digit_isnt_special {c : Char} (h : c.isDigit = true) :
    pySpace c = false ∧ c ≠ '€' ∧ c ≠ 'E' ∧ c ≠ '%' ∧ c ≠ ',' ∧ c ≠ '.' := by
  have hrange : 48 ≤ c.toNat ∧ c.toNat ≤ 57 := by
    simp only [Char.isDigit, decide_eq_true_eq, Bool.and_eq_true] at h
    exact ⟨h.1, h.2⟩
  have hne : ∀ d : Char, ¬(48 ≤ d.toNat ∧ d.toNat ≤ 57) → c ≠ d := by
    intro d hd hcd; exact hd (hcd ▸ hrange)
  refine ⟨?_, hne _ (by decide), hne _ (by decide), hne _ (by decide),
    hne _ (by decide), hne _ (by decide)⟩
  unfold pySpace
  rw [decide_eq_false (hne ' ' (by decide)), decide_eq_false (hne '\t' (by decide)),
    decide_eq_false (hne '\n' (by decide)), decide_eq_false (hne '\r' (by decide)),
    decide_eq_false (hne '\x0b' (by decide)), decide_eq_false (hne '\x0c' (by decide)),
    decide_eq_false (hne '\xa0' (by decide))]
  rfl

/-!
## Claim C1 — money parsing

The code does NOT implement a "last-occurring separator is decimal" rule:
whenever both `,` and `.` are present, `,` is always the decimal separator
and every `.` is removed.  `norm_num("1,234.56")` is therefore `1.23456`,
not `1234.56` as the claim states.
-/

/-- C1 (counterexample): on `"1,234.56"`, where `.` is the last-occurring
separator, `norm_num` yields `1.23456` and not the claimed `1234.56`. -/
theorem c1_counterexample :
    norm_num (some (pys "1,234.56")) = some (123456 / 100000 : ℚ) ∧
    norm_num (some (pys "1,234.56")) ≠ some (123456 / 100 : ℚ) := by
  constructor
  · decide
  · decide

/-- The all-digits side condition used by the amended claim C1. -/
abbrev allDigits (s : PyStr) : Prop := ∀ x ∈ s, x.isDigit = true

theorem norm_num_digits_comma_dot (a b c : PyStr)
    (ha : allDigits a) (hb : allDigits b) (hc : allDigits c) :
    norm_num (some (a ++ [','] ++ b ++ ['.'] ++ c)) =
      norm_num (some (a ++ [','] ++ b ++ c)) := by
  have hmemL : ∀ x ∈ a ++ [','] ++ b ++ ['.'] ++ c,
      x.isDigit = true ∨ x = ',' ∨ x = '.' := by
    intro x hx
    simp only [List.mem_append, List.mem_singleton] at hx
    rcases hx with ((((hx | hx) | hx) | hx) | hx)
    · exact Or.inl (ha x hx)
    · exact Or.inr (Or.inl hx)
    · exact Or.inl (hb x hx)
    · exact Or.inr (Or.inr hx)
    · exact Or.inl (hc x hx)
  have hmemR : ∀ x ∈ a ++ [','] ++ b ++ c, x.isDigit = true ∨ x = ',' ∨ x = '.' := by
    intro x hx
    simp only [List.mem_append, List.mem_singleton] at hx
    rcases hx with (((hx | hx) | hx) | hx)
    · exact Or.inl (ha x hx)
    · exact Or.inr (Or.inl hx)
    · exact Or.inl (hb x hx)
    · exact Or.inl (hc x hx)
  -- generic facts about strings made of digits, commas and dots
  have hspace : ∀ {s : PyStr}, (∀ x ∈ s, x.isDigit = true ∨ x = ',' ∨ x = '.') →
      ∀ x ∈ s, pySpace x = false := by
    intro s hs x hx
    rcases hs x hx with h | h | h
    · exact (digit_isnt_special h).1
    · subst h; decide
    · subst h; decide
  have hclean : ∀ {s : PyStr}, (∀ x ∈ s, x.isDigit = true ∨ x = ',' ∨ x = '.') →
      removeChar '%' (removeChar '\xa0' (removeChar ' '
        (removeEUR (removeChar '€' s)))) = s := by
    intro s hs
    have h1 : removeChar '€' s = s := by
      apply removeChar_eq_self; intro x hx
      rcases hs x hx with h | h | h
      · exact (digit_isnt_special h).2.1
      · subst h; decide
      · subst h; decide
    have h2 : removeEUR s = s := by
      apply removeEUR_eq_self; intro x hx
      rcases hs x hx with h | h | h
      · exact (digit_isnt_special h).2.2.1
      · subst h; decide
      · subst h; decide
    have h3 : removeChar ' ' s = s := by
      apply removeChar_eq_self; intro x hx
      rcases hs x hx with h | h | h
      · have := (digit_isnt_special h).1
        intro hxe; subst hxe; simp [pySpace] at this
      · subst h; decide
      · subst h; decide
    have h4 : removeChar '\xa0' s = s := by
      apply removeChar_eq_self; intro x hx
      rcases hs x hx with h | h | h
      · have := (digit_isnt_special h).1
        intro hxe; subst hxe; simp [pySpace] at this
      · subst h; decide
      · subst h; decide
    have h5 : removeChar '%' s = s := by
      apply removeChar_eq_self; intro x hx
      rcases hs x hx with h | h | h
      · exact (digit_isnt_special h).2.2.2.1
      · subst h; decide
      · subst h; decide
    rw [h1, h2, h3, h4, h5]
  have hstripL := pyStrip_eq_self (hspace hmemL)
  have hstripR := pyStrip_eq_self (hspace hmemR)
  have hneL : (a ++ [','] ++ b ++ ['.'] ++ c).isEmpty = false := by
    simp [List.isEmpty_iff]
  have hneR : (a ++ [','] ++ b ++ c).isEmpty = false := by
    simp [List.isEmpty_iff]
  -- membership of the separators
  have hcommaL : (a ++ [','] ++ b ++ ['.'] ++ c).contains ',' = true := by
    simp [List.contains_eq_any_beq]
  have hdotL : (a ++ [','] ++ b ++ ['.'] ++ c).contains '.' = true := by
    simp [List.contains_eq_any_beq]
  have hcommaR : (a ++ [','] ++ b ++ c).contains ',' = true := by
    simp [List.contains_eq_any_beq]
  have hdigit_ne_dot : ∀ {s : PyStr}, allDigits s → ∀ x ∈ s, x ≠ '.' := by
    intro s hs x hx
    exact (digit_isnt_special (hs x hx)).2.2.2.2.2
  have hdotR : (a ++ [','] ++ b ++ c).contains '.' = false := by
    rw [List.contains_eq_any_beq]
    simp only [List.any_eq_false, beq_iff_eq]
    intro x hx
    simp only [List.mem_append, List.mem_singleton] at hx
    rcases hx with (((hx | hx) | hx) | hx)
    · exact fun he => hdigit_ne_dot ha x hx (by rw [he])
    · subst hx; decide
    · exact fun he => hdigit_ne_dot hb x hx (by rw [he])
    · exact fun he => hdigit_ne_dot hc x hx (by rw [he])
  -- removing the dots from the left string gives the right string
  have hremdot : removeChar '.' (a ++ [','] ++ b ++ ['.'] ++ c) =
      a ++ [','] ++ b ++ c := by
    unfold removeChar
    simp only [List.filter_append]
    have fa : a.filter (fun x => !(x == '.')) = a :=
      List.filter_eq_self.mpr (fun x hx => by
        simpa using hdigit_ne_dot ha x hx)
    have fb : b.filter (fun x => !(x == '.')) = b :=
      List.filter_eq_self.mpr (fun x hx => by
        simpa using hdigit_ne_dot hb x hx)
    have fc : c.filter (fun x => !(x == '.')) = c :=
      List.filter_eq_self.mpr (fun x hx => by
        simpa using hdigit_ne_dot hc x hx)
    rw [fa, fb, fc]
    have e1 : List.filter (fun x => !(x == '.')) [','] = [','] := by decide
    have e2 : List.filter (fun x => !(x == '.')) ['.'] = [] := by decide
    rw [e1, e2, List.append_nil]
  -- the right-hand branch only replaces commas
  unfold norm_num
  simp only [hstripL, hstripR, hneL, hneR, hclean hmemL, hclean hmemR,
    hcommaL, hdotL, hcommaR, hdotR, hremdot, Bool.and_self, Bool.and_false,
    Bool.true_and, if_true, if_false, Bool.false_eq_true]

/-- C1 (amended): when both `,` and `.` occur in the input, the comma is
always the decimal separator and every dot is treated as a thousands
separator, regardless of which occurs last (a dot to the right of the comma
is simply removed); `"1.234,56"` parses to `1234.56`, `"1,234.56"` parses
to `1.23456`, and empty or unparseable input yields no value (the model is
a total function, so no exception is possible). -/
theorem c1_amended :
    (∀ a b c : PyStr, allDigits a → allDigits b → allDigits c →
      norm_num (some (a ++ [','] ++ b ++ ['.'] ++ c)) =
        norm_num (some (a ++ [','] ++ b ++ c))) ∧
    norm_num (some (pys "1.234,56")) = some (1234.56 : ℚ) ∧
    norm_num (some (pys "1,234.56")) = some (1.23456 : ℚ) ∧
    norm_num (some (pys "")) = none ∧
    norm_num (some (pys "12x,3.4")) = none ∧
    norm_num none = none := by
  refine ⟨norm_num_digits_comma_dot, ?_, ?_, ?_, ?_, ?_⟩
  · decide
  · decide
  · decide
  · decide
  · decide

/-- C1 (witness): the universal part of the amended claim, instantiated at
`"1" "," "234" "." "56"`. -/
theorem c1_witness :
    norm_num (some (pys "1,234.56")) = norm_num (some (pys "1,23456")) := by
  have h := c1_amended.1 (pys "1") (pys "234") (pys "56")
    (by decide) (by decide) (by decide)
  exact h

/-!
## Claim C9 — percentage parsing

The code rounds its result to 6 decimal places, so values with more than 6
significant decimals are not returned exactly; otherwise the `> 1.0 →
divide by 100` rule is as claimed.
-/

/-- C9 (counterexample): `to_decimal_pct("21,000001%")` is `0.21`, not the
claimed `21.000001 / 100 = 0.21000001`. -/
theorem c9_counterexample :
    to_decimal_pct (some (.inr (pys "21,000001%"))) = some (21 / 100 : ℚ) ∧
    (21 / 100 : ℚ) ≠ (21.000001 : ℚ) / 100 := by
  constructor
  · decide
  · decide

theorem pyRoundHalfEven_intCast (z : ℤ) : pyRoundHalfEven (z : ℚ) = z := by
  unfold pyRoundHalfEven
  rw [Int.floor_intCast]
  norm_num

theorem pyRound_eq_self {q : ℚ} (n : ℕ) (h : ∃ z : ℤ, q * 10 ^ n = (z : ℚ)) :
    pyRound n q = q := by
  obtain ⟨z, hz⟩ := h
  unfold pyRound
  rw [hz, pyRoundHalfEven_intCast, ← hz]
  field_simp

/-- C9 (amended): a numeric value `> 1.0` is divided by 100 and rounded to
6 decimal places (hence returned exactly as `value/100` whenever that
quotient has at most 6 decimals); a value `≤ 1.0` is rounded to 6 decimal
places (hence returned unchanged whenever it has at most 6 decimals);
`"21,00%"` yields `0.21`; empty or garbage input yields no value. -/
theorem c9_amended :
    (∀ q : ℚ, 1 < q → to_decimal_pct (some (.inl q)) = some (pyRound 6 (q / 100))) ∧
    (∀ q : ℚ, ¬ 1 < q → to_decimal_pct (some (.inl q)) = some (pyRound 6 q)) ∧
    (∀ q : ℚ, ¬ 1 < q → (∃ z : ℤ, q * 10 ^ 6 = (z : ℚ)) →
      to_decimal_pct (some (.inl q)) = some q) ∧
    to_decimal_pct (some (.inr (pys "21,00%"))) = some (21 / 100 : ℚ) ∧
    to_decimal_pct (some (.inr (pys ""))) = none ∧
    to_decimal_pct (some (.inr (pys "abc"))) = none ∧
    to_decimal_pct none = none := by
  refine ⟨?_, ?_, ?_, by decide, by decide, by decide, rfl⟩
  · intro q hq; simp [to_decimal_pct, hq]
  · intro q hq; simp [to_decimal_pct, hq]
  · intro q hq hz; simp [to_decimal_pct, hq, pyRound_eq_self 6 hz]

/-- C9 (witness): the amended claim instantiated at the fraction `1/2`
(already converted, at most 6 decimals, returned unchanged) and at `50.0`. -/
theorem c9_witness :
    to_decimal_pct (some (.inl (1 / 2 : ℚ))) = some (1 / 2 : ℚ) ∧
    to_decimal_pct (some (.inl (50 : ℚ))) = some (pyRound 6 ((50 : ℚ) / 100)) := by
  constructor
  · exact c9_amended.2.2.1 (1 / 2) (by norm_num) ⟨500000, by norm_num⟩
  · exact c9_amended.1 50 (by norm_num)

/-!
## A small backtracking regular-expression engine

The extraction code leans on Python's `re` module.  The fragment of regex
syntax it uses (literals, character classes, bounded and unbounded greedy
or lazy repetition of a class, optional non-capturing groups, top-level
alternation, word boundaries, a negative lookahead for a single character,
the `$` anchor, and non-nested capture groups) is embedded below with the
backtracking priority order of the Python engine: alternatives are tried
left to right, greedy repetition longest-first, lazy repetition
shortest-first, and the overall match is the leftmost one.

The matcher recurses structurally on a fuel argument so that the kernel
can evaluate it; the fuel passed by the entry points bounds the call depth
(one unit per pattern token along a chain, plus slack), which never
exceeds the size of the token list.
-/

/-- The uppercase map used for case-insensitive matching and for Python's
`str.upper()` (ASCII plus the accented characters used in this code). -/
def pyUpperChar (c : Char) : Char :=
  if 'a' ≤ c && c ≤ 'z' then Char.ofNat (c.toNat - 32)
  else if c = 'á' then 'Á' else if c = 'é' then 'É' else if c = 'í' then 'Í'
  else if c = 'ó' then 'Ó' else if c = 'ú' then 'Ú' else if c = 'ü' then 'Ü'
  else if c = 'ñ' then 'Ñ' else c

/-- Python `text.upper()`. -/
def pyUpper (s : PyStr) : PyStr := s.map pyUpperChar

/-- Character classes.  Case-insensitive variants (`liti`, `oneOfi`,
`rngi`) take their data in uppercase and compare against the uppercased
input character. -/
inductive CC where
  | lit (c : Char)
  | liti (c : Char)
  | digit
  | wsp
  | anyc
  | dotAny
  | notCrLf
  | oneOf (cs : List Char)
  | oneOfi (cs : List Char)
  | rng (lo hi : Char)
  | rngi (lo hi : Char)
  | union (a b : CC)

/-- Does character `x` belong to the class?  `dotAny` is Python's `.`
(everything except `\n`), `notCrLf` is the explicit class `[^\n\r]`,
`wsp` is `\s`, `anyc` is `[\s\S]`. -/
def CC.test : CC → Char → Bool
  | .lit c, x => x == c
  | .liti c, x => pyUpperChar x == c
  | .digit, x => x.isDigit
  | .wsp, x => pySpace x
  | .anyc, _ => true
  | .dotAny, x => !(x == '\n')
  | .notCrLf, x => !(x == '\n' || x == '\r')
  | .oneOf cs, x => cs.contains x
  | .oneOfi cs, x => cs.contains (pyUpperChar x)
  | .rng lo hi, x => lo ≤ x && x ≤ hi
  | .rngi lo hi, x => lo ≤ pyUpperChar x && pyUpperChar x ≤ hi
  | .union a b, x => a.test x || b.test x

/-- Word characters for `\b` (Python `\w` restricted to the characters
appearing in this development). -/
def wordChar (c : Char) : Bool :=
  c.isAlphanum || c == '_' || (pys "ÁÉÍÓÚÜÑáéíóúüñºª").contains c

/-- Pattern tokens.  `cls cc lo hi lzy` repeats class `cc` between `lo`
and `hi` times (`none` = unbounded), lazily when `lzy`; `alt` tries its
alternatives in order; `nla cc` is `(?!c)` for a single character class;
`gOpen`/`gClose` bracket capture group `i`; `eol` is `$`. -/
inductive RTok where
  | cls (cc : CC) (lo : Nat) (hi : Option Nat) (lzy : Bool)
  | alt (alts : List (List RTok))
  | wb
  | nla (cc : CC)
  | eol
  | gOpen (i : Nat)
  | gClose (i : Nat)

/-- Result of a successful match attempt: the end position and the list
of closed capture groups `(index, start, stop)`. -/
structure MRes where
  stop : Nat
  caps : List (Nat × Nat × Nat)
deriving DecidableEq, Repr

/-- Is `pos` a word boundary of `text`? -/
def isWordBoundary (text : PyStr) (pos : Nat) : Bool :=
  let before := if pos = 0 then false else
    match text[pos - 1]? with | some c => wordChar c | none => false
  let after := match text[pos]? with | some c => wordChar c | none => false
  before != after

/-- Length of the run of characters of class `cc` starting at `pos`. -/
def runLen (cc : CC) (text : PyStr) (pos : Nat) : Nat :=
  ((text.drop pos).takeWhile cc.test).length

/-- Core backtracking matcher.  Tries to match the token list at `pos`,
returning the first success in Python's priority order.  `opens` holds
the start positions of currently open capture groups. -/
def mtk (text : PyStr) : Nat → List RTok → Nat → List (Nat × Nat) →
    List (Nat × Nat × Nat) → Option MRes
  | 0, _, _, _, _ => none
  | _ + 1, [], pos, _, caps => some ⟨pos, caps⟩
  | fuel + 1, .cls cc lo hi lzy :: rest, pos, opens, caps =>
    let avail := runLen cc text pos
    let top := match hi with | none => avail | some h => min h avail
    if top < lo then none
    else
      let ks := (List.range (top - lo + 1)).map
        (fun d => if lzy then lo + d else top - d)
      ks.findSome? (fun k => mtk text fuel rest (pos + k) opens caps)
  | fuel + 1, .alt alts :: rest, pos, opens, caps =>
    alts.findSome? (fun a => mtk text fuel (a ++ rest) pos opens caps)
  | fuel + 1, .wb :: rest, pos, opens, caps =>
    if isWordBoundary text pos then mtk text fuel rest pos opens caps else none
  | fuel + 1, .nla cc :: rest, pos, opens, caps =>
    match text[pos]? with
    | some c => if cc.test c then none else mtk text fuel rest pos opens caps
    | none => mtk text fuel rest pos opens caps
  | fuel + 1, .eol :: rest, pos, opens, caps =>
    if pos = text.length ||
        (pos + 1 = text.length && text[pos]? = some '\n') then
      mtk text fuel rest pos opens caps
    else none
  | fuel + 1, .gOpen i :: rest, pos, opens, caps =>
    mtk text fuel rest pos ((i, pos) :: opens) caps
  | fuel + 1, .gClose i :: rest, pos, opens, caps =>
    match opens.find? (fun o => o.1 == i) with
    | some o => mtk text fuel rest pos opens (caps ++ [(i, o.2, pos)])
    | none => none

/-- A whole match: its span and its capture groups. -/
structure MatchInfo where
  start : Nat
  stop : Nat
  caps : List (Nat × Nat × Nat)
deriving DecidableEq, Repr

/-- Match attempt anchored at `pos`.  The call depth of `mtk` is bounded
by the total number of tokens of the pattern (counting the contents of
`alt` nodes), which is below 1000 for every pattern in this file, so the
fuel is never exhausted. -/
def reMatchAt (pat : List RTok) (text : PyStr) (pos : Nat) : Option MRes :=
  mtk text (1000 + text.length) pat pos [] []

/-- Scan for the leftmost match at or after `pos` (`remaining` counts the
positions still to try). -/
def scanFrom (pat : List RTok) (text : PyStr) : Nat → Nat → Option MatchInfo
  | 0, _ => none
  | r + 1, pos =>
    match reMatchAt pat text pos with
    | some m => some ⟨pos, m.stop, m.caps⟩
    | none => scanFrom pat text r (pos + 1)

/-- Python `pat.search(text)`. -/
def reSearch (pat : List RTok) (text : PyStr) : Option MatchInfo :=
  scanFrom pat text (text.length + 1) 0

/-- Does the pattern occur anywhere in the text? -/
def reTest (pat : List RTok) (text : PyStr) : Bool :=
  (reSearch pat text).isSome

/-- Python `pat.finditer(text)`: non-overlapping matches, scanning left to
right (an empty match advances the scan position by one). -/
def findIterFrom (pat : List RTok) (text : PyStr) : Nat → Nat → List MatchInfo
  | 0, _ => []
  | r + 1, pos =>
    if pos > text.length then []
    else
      match scanFrom pat text (text.length + 1 - pos) pos with
      | none => []
      | some m =>
        let next := if m.stop > m.start then m.stop else m.stop + 1
        m :: findIterFrom pat text r next

/-- All matches of `pat` in `text`, in order. -/
def findIter (pat : List RTok) (text : PyStr) : List MatchInfo :=
  findIterFrom pat text (text.length + 2) 0

/-- Extent of capture group `i` in a match, if it closed. -/
def capSpan (i : Nat) (m : MatchInfo) : Option (Nat × Nat) :=
  (m.caps.find? (fun t => t.1 == i)).map (fun t => (t.2.1, t.2.2))

/-- Text of capture group `i` of a match (empty if absent). -/
def capStr (text : PyStr) (i : Nat) (m : MatchInfo) : PyStr :=
  match capSpan i m with
  | some (s, e) => (text.drop s).take (e - s)
  | none => []

/-- Text of a whole match. -/
def matchStr (text : PyStr) (m : MatchInfo) : PyStr :=
  (text.drop m.start).take (m.stop - m.start)

/-- Remove the spans of an ascending list of non-overlapping matches from
`text` (the core of `re.sub(pat, "", text)`), keeping the text from
`prev` onward. -/
def cutMatches (text : PyStr) : Nat → List MatchInfo → PyStr
  | prev, [] => text.drop prev
  | prev, m :: ms => (text.drop prev).take (m.start - prev) ++ cutMatches text m.stop ms

/-- Python `re.sub(pat, "", text)`. -/
def reSubEmpty (pat : List RTok) (text : PyStr) : PyStr :=
  cutMatches text 0 (findIter pat text)

/-!
### Pattern-building helpers
-/

/-- One occurrence of an exact character. -/
def lit1 (c : Char) : RTok := .cls (.lit c) 1 (some 1) false

/-- One occurrence of a character, case-insensitively. -/
def liti1 (c : Char) : RTok := .cls (.liti c) 1 (some 1) false

/-- A literal string. -/
def lits (s : String) : List RTok := s.data.map lit1

/-- A literal string matched case-insensitively (spelled in uppercase). -/
def litsi (s : String) : List RTok := s.data.map liti1

/-- `\s+`. -/
def wsPlus : RTok := .cls .wsp 1 none false

/-- `\s*`. -/
def wsStar : RTok := .cls .wsp 0 none false

/-- `\d{n}`. -/
def digitN (n : Nat) : RTok := .cls .digit n (some n) false

/-- `\d{lo,hi}`. -/
def digitR (lo hi : Nat) : RTok := .cls .digit lo (some hi) false

/-- `c?` for a class. -/
def clsOpt (cc : CC) : RTok := .cls cc 0 (some 1) false

/-- `c*` (greedy) for a class. -/
def clsStar (cc : CC) : RTok := .cls cc 0 none false

/-- `c*?` (lazy) for a class. -/
def clsStarL (cc : CC) : RTok := .cls cc 0 none true

/-- `c+` (greedy) for a class. -/
def clsPlus (cc : CC) : RTok := .cls cc 1 none false

/-- `(?:...)?` — optional group, greedy. -/
def optSeq (ts : List RTok) : RTok := .alt [ts, []]

/-- Capture group `i` around a token list. -/
def grp (i : Nat) (ts : List RTok) : List RTok :=
  .gOpen i :: ts ++ [.gClose i]

/-!
## Tax-ID scanning (`main.py` lines 339–376)
-/

/-- `re.sub(r"[^A-Za-z0-9]", "", s).upper()` — ASCII alphanumeric test. -/
def pyIsAlnumAscii (c : Char) : Bool :=
  c.isDigit || ('A' ≤ c && c ≤ 'Z') || ('a' ≤ c && c ≤ 'z')

/-- `main.py` `norm_cif` on a present string: strip every non-alphanumeric
character and uppercase. -/
def norm_cif (s : PyStr) : PyStr :=
  (s.filter pyIsAlnumAscii).map pyUpperChar

/-- Python `cid.replace("ES", "")`. -/
def removeES : PyStr → PyStr
  | 'E' :: 'S' :: rest => removeES rest
  | c :: rest => c :: removeES rest
  | [] => []

/-- `CLIENT_IDS` (`main.py` line 38). -/
def CLIENT_IDS : List PyStr := [pys "J99198285", pys "ESJ99198285"]

/-- The optional country prefix `(?:ES\s*[-.]?)?` of the Spanish VAT
patterns. -/
def esVatPrefix : RTok :=
  optSeq (litsi "ES" ++ [wsStar, clsOpt (.oneOf ['-', '.'])])

/-- `\b(?:ES\s*[-.]?)?([A-HJNPQRSUVW]\s*-?\s*\d{7}\s*-?\s*[0-9A-J])\b`
with `re.IGNORECASE`. -/
def esVat1 : List RTok :=
  [.wb, esVatPrefix] ++
    grp 1 [.cls (.oneOfi (pys "ABCDEFGHJNPQRSUVW")) 1 (some 1) false, wsStar,
      clsOpt (.lit '-'), wsStar, digitN 7, wsStar, clsOpt (.lit '-'), wsStar,
      .cls (.union .digit (.rngi 'A' 'J')) 1 (some 1) false] ++ [.wb]

/-- `\b(?:ES\s*[-.]?)?(\d{8}\s*-?\s*[A-Z])\b` with `re.IGNORECASE`. -/
def esVat2 : List RTok :=
  [.wb, esVatPrefix] ++
    grp 1 [digitN 8, wsStar, clsOpt (.lit '-'), wsStar,
      .cls (.rngi 'A' 'Z') 1 (some 1) false] ++ [.wb]

/-- `\b(?:ES\s*[-.]?)?([XYZ]\s*-?\s*\d{7}\s*-?\s*[A-Z])\b` with
`re.IGNORECASE`. -/
def esVat3 : List RTok :=
  [.wb, esVatPrefix] ++
    grp 1 [.cls (.oneOfi ['X', 'Y', 'Z']) 1 (some 1) false, wsStar,
      clsOpt (.lit '-'), wsStar, digitN 7, wsStar, clsOpt (.lit '-'), wsStar,
      .cls (.rngi 'A' 'Z') 1 (some 1) false] ++ [.wb]

/-- `ES_VAT_PATTERNS` (`main.py` lines 339–343). -/
def ES_VAT_PATTERNS : List (List RTok) := [esVat1, esVat2, esVat3]

/-- `EU_VAT_GENERIC = r"\b([A-Z]{2}[A-Z0-9\-.]{8,14})\b"` (case-sensitive,
`main.py` line 344). -/
def EU_VAT_GENERIC : List RTok :=
  [.wb] ++
    grp 1 [.cls (.rng 'A' 'Z') 2 (some 2) false,
      .cls (.union (.rng 'A' 'Z') (.union .digit (.oneOf ['-', '.']))) 8 (some 14) false] ++
    [.wb]

/-- The candidate stream of `find_vat_candidates` before deduplication:
for each Spanish pattern every match whose canonical form is non-empty and
is not (even with `ES` stripped) a client ID, followed by every generic EU
match whose canonical form is non-empty and not a client ID. -/
def rawVatCandidates (text : PyStr) : List PyStr :=
  (ES_VAT_PATTERNS.flatMap (fun pat =>
    (findIter pat text).filterMap (fun m =>
      let cid := norm_cif (capStr text 1 m)
      if cid.isEmpty then none
      else if CLIENT_IDS.contains cid || CLIENT_IDS.contains (removeES cid) then none
      else some cid))) ++
  ((findIter EU_VAT_GENERIC text).filterMap (fun m =>
    let cid := norm_cif (capStr text 1 m)
    if cid.isEmpty then none
    else if CLIENT_IDS.contains cid then none
    else some cid))

/-- The `out`-accumulator loop at the end of `find_vat_candidates`:
append each candidate not seen before. -/
def dedupKeepFirst (l : List PyStr) : List PyStr :=
  l.foldl (fun out c => if out.contains c then out else out ++ [c]) []

/-- `main.py` `find_vat_candidates` (lines 357–376). -/
def find_vat_candidates (text : PyStr) : List PyStr :=
  dedupKeepFirst (rawVatCandidates text)

/-!
## Claim C8 — properties of `find_vat_candidates`
-/

theorem char_le_iff {a b : Char} : a ≤ b ↔ a.toNat ≤ b.toNat := by
  rfl

theorem charOfNat_toNat {n : ℕ} (h1 : 65 ≤ n) (h2 : n ≤ 90) :
    (Char.ofNat n).toNat = n := by
  unfold Char.ofNat
  split
  · simp [Char.toNat, Char.ofNatAux, UInt32.toNat, BitVec.toNat_ofNatLt]
  · rename_i h; exfalso; apply h; constructor; omega

theorem isDigit_iff_toNat {c : Char} :
    c.isDigit = true ↔ (48 ≤ c.toNat ∧ c.toNat ≤ 57) := by
  simp only [Char.isDigit, decide_eq_true_eq, Bool.and_eq_true]
  exact ⟨fun h => ⟨h.1, h.2⟩, fun h => ⟨h.1, h.2⟩⟩

/-- Canonicalization really produces uppercase letters and digits. -/
theorem pyUpperChar_of_alnum {c : Char} (h : pyIsAlnumAscii c = true) :
    (pyUpperChar c).isDigit = true ∨
      ('A' ≤ pyUpperChar c ∧ pyUpperChar c ≤ 'Z') := by
  simp only [pyIsAlnumAscii, Bool.or_eq_true, Bool.and_eq_true,
    decide_eq_true_eq, char_le_iff, isDigit_iff_toNat] at h
  have hA : ('A').toNat = 65 := rfl
  have hZ : ('Z').toNat = 90 := rfl
  have ha : ('a').toNat = 97 := rfl
  have hz : ('z').toNat = 122 := rfl
  have hr : (48 ≤ c.toNat ∧ c.toNat ≤ 57) ∨ (65 ≤ c.toNat ∧ c.toNat ≤ 90) ∨
      (97 ≤ c.toNat ∧ c.toNat ≤ 122) := by
    rcases h with (h | h) | h
    · exact Or.inl h
    · refine Or.inr (Or.inl ⟨?_, ?_⟩) <;> omega
    · refine Or.inr (Or.inr ⟨?_, ?_⟩) <;> omega
  unfold pyUpperChar
  split_ifs with h1 h2 h3 h4 h5 h6 h7 h8
  · -- lowercase ASCII letter: shifted into the uppercase range
    simp only [Bool.and_eq_true, decide_eq_true_eq, char_le_iff] at h1
    have h97 : 97 ≤ c.toNat := by omega
    have h122 : c.toNat ≤ 122 := by omega
    have ht : (Char.ofNat (c.toNat - 32)).toNat = c.toNat - 32 :=
      charOfNat_toNat (by omega) (by omega)
    right
    rw [char_le_iff, char_le_iff, ht]
    constructor <;> omega
  all_goals (try (subst_vars; revert hr; decide))
  -- unchanged character: a digit or an uppercase letter
  simp only [Bool.and_eq_true, decide_eq_true_eq, char_le_iff, not_and,
    not_le] at h1
  rcases hr with h | h | h
  · exact Or.inl (isDigit_iff_toNat.mpr h)
  · right
    rw [char_le_iff, char_le_iff]
    constructor <;> omega
  · exfalso
    have := h1 (by omega)
    omega

/-- Deduplication keeping the first occurrence of each element, in order
(the behaviour the claim ascribes to the final loop of
`find_vat_candidates`; also Python's `set(...)` when followed by a
sort). -/
def dedupF {α : Type} [BEq α] : List α → List α
  | [] => []
  | c :: rest => c :: dedupF (rest.filter (fun x => !(x == c)))
termination_by l => l.length
decreasing_by
  simp only [List.length_cons]
  exact Nat.lt_succ_of_le (List.length_filter_le _ _)

theorem mem_dedupF {x : PyStr} {l : List PyStr} : x ∈ dedupF l ↔ x ∈ l := by
  induction l using dedupF.induct with
  | case1 => simp [dedupF]
  | case2 c rest ih =>
    rw [dedupF]
    by_cases hx : x = c
    · simp [hx]
    · simp only [List.mem_cons, ih, List.mem_filter]
      constructor
      · rintro (h | h)
        · exact Or.inl h
        · exact Or.inr h.1
      · rintro (h | h)
        · exact Or.inl h
        · exact Or.inr ⟨h, by simpa using hx⟩

theorem nodup_dedupF (l : List PyStr) : (dedupF l).Nodup := by
  induction l using dedupF.induct with
  | case1 => simp [dedupF]
  | case2 c rest ih =>
    rw [dedupF]
    refine List.nodup_cons.mpr ⟨fun hmem => ?_, ih⟩
    have := (mem_dedupF.mp hmem)
    simp at this

theorem sublist_dedupF (l : List PyStr) : (dedupF l).Sublist l := by
  induction l using dedupF.induct with
  | case1 => simp [dedupF]
  | case2 c rest ih =>
    rw [dedupF]
    exact List.Sublist.cons₂ c (ih.trans (List.filter_sublist rest))

theorem contains_append_singleton (out : List PyStr) (c x : PyStr) :
    (out ++ [c]).contains x = (out.contains x || x == c) := by
  induction out with
  | nil =>
    rw [List.nil_append, List.contains_cons, List.contains_nil,
      Bool.or_false, Bool.false_or]
  | cons a as ih =>
    simp only [List.cons_append, List.contains_cons, ih, Bool.or_assoc]

/-- The accumulator loop of `find_vat_candidates` computes exactly the
first-occurrence deduplication. -/
theorem foldl_dedup (l : List PyStr) (out : List PyStr) :
    l.foldl (fun out c => if out.contains c then out else out ++ [c]) out =
      out ++ dedupF (l.filter (fun x => !(out.contains x))) := by
  induction l generalizing out with
  | nil => simp [dedupF]
  | cons c cs ih =>
    by_cases hc : out.contains c
    · have hcm : c ∈ out := by
        simpa [List.contains, List.elem_eq_mem] using hc
      rw [List.foldl_cons, if_pos hc, ih, List.filter_cons]
      simp [hc, hcm]
    · rw [List.foldl_cons, if_neg hc, ih, List.filter_cons]
      have hco : out.contains c = false := by
        exact Bool.not_eq_true _ ▸ (by simpa using hc)
      simp only [hco, Bool.not_false, if_pos]
      rw [dedupF, List.append_assoc]
      have hfilters : cs.filter (fun x => !((out ++ [c]).contains x)) =
          (cs.filter (fun x => !(out.contains x))).filter (fun x => !(x == c)) := by
        rw [List.filter_filter]
        apply List.filter_congr
        intro x _
        rw [contains_append_singleton]
        cases hxo : out.contains x <;> cases hxc : x == c <;> rfl
      rw [hfilters]
      rfl

theorem find_vat_candidates_eq_dedupF (text : PyStr) :
    find_vat_candidates text = dedupF (rawVatCandidates text) := by
  unfold find_vat_candidates dedupKeepFirst
  rw [foldl_dedup]
  simp [List.filter_true]

/-- Every element of the pre-deduplication stream is the canonical form of
a matched token and is not a client identifier. -/
theorem rawVatCandidates_spec (text : PyStr) :
    ∀ cid ∈ rawVatCandidates text, (∃ s, cid = norm_cif s) ∧ cid ∉ CLIENT_IDS := by
  intro cid hcid
  unfold rawVatCandidates at hcid
  rw [List.mem_append] at hcid
  have hof : ∀ (m : MatchInfo) (kES : Bool),
      (if (norm_cif (capStr text 1 m)).isEmpty then none
        else if CLIENT_IDS.contains (norm_cif (capStr text 1 m)) ||
            (kES && CLIENT_IDS.contains (removeES (norm_cif (capStr text 1 m)))) then none
        else some (norm_cif (capStr text 1 m))) = some cid →
      (∃ s, cid = norm_cif s) ∧ cid ∉ CLIENT_IDS := by
    intro m kES hm
    split_ifs at hm with hempty hclient
    have heq : norm_cif (capStr text 1 m) = cid := by
      simpa using hm
    subst heq
    refine ⟨⟨capStr text 1 m, rfl⟩, fun hmem => ?_⟩
    rw [Bool.not_eq_true, Bool.or_eq_false_iff] at hclient
    have hcl := hclient.1
    rw [List.contains, List.elem_eq_mem, decide_eq_false_iff_not] at hcl
    exact hcl hmem
  rcases hcid with hcid | hcid
  · rw [List.mem_flatMap] at hcid
    obtain ⟨pat, _, hmem⟩ := hcid
    rw [List.mem_filterMap] at hmem
    obtain ⟨m, _, hm⟩ := hmem
    exact hof m true (by simpa using hm)
  · rw [List.mem_filterMap] at hcid
    obtain ⟨m, _, hm⟩ := hcid
    have := hof m false
    simp only [Bool.false_and, Bool.or_false] at this
    exact this (by simpa using hm)

/-- C8: every identifier returned by the scan is canonical (made of
digits and uppercase letters only), the list is duplicate-free, it is the
first-occurrence deduplication of the match stream — in particular a
subsequence of it with the same members, so first-seen order is kept —
and no client identifier appears. -/
theorem c8_find_vat_candidates (text : PyStr) :
    (∀ cid ∈ find_vat_candidates text, ∀ ch ∈ cid,
      ch.isDigit = true ∨ ('A' ≤ ch ∧ ch ≤ 'Z')) ∧
    (find_vat_candidates text).Nodup ∧
    find_vat_candidates text = dedupF (rawVatCandidates text) ∧
    (find_vat_candidates text).Sublist (rawVatCandidates text) ∧
    (∀ cid, cid ∈ find_vat_candidates text ↔ cid ∈ rawVatCandidates text) ∧
    (∀ cid ∈ find_vat_candidates text, cid ∉ CLIENT_IDS) := by
  have heq := find_vat_candidates_eq_dedupF text
  have hmem : ∀ cid, cid ∈ find_vat_candidates text ↔ cid ∈ rawVatCandidates text := by
    intro cid; rw [heq]; exact mem_dedupF
  refine ⟨?_, ?_, heq, ?_, hmem, ?_⟩
  · intro cid hcid ch hch
    obtain ⟨⟨s, hs⟩, _⟩ := rawVatCandidates_spec text cid ((hmem cid).mp hcid)
    subst hs
    unfold norm_cif at hch
    rw [List.mem_map] at hch
    obtain ⟨c, hc, hcu⟩ := hch
    rw [List.mem_filter] at hc
    exact hcu ▸ pyUpperChar_of_alnum hc.2
  · rw [heq]; exact nodup_dedupF _
  · rw [heq]; exact sublist_dedupF _
  · intro cid hcid
    exact (rawVatCandidates_spec text cid ((hmem cid).mp hcid)).2

/-- C8 (witness): the members property instantiated on a concrete text —
the scan of `"CIF: ES-B12345678"` contains the canonical `B12345678`. -/
theorem c8_witness :
    pys "B12345678" ∈ find_vat_candidates (pys "CIF: ES-B12345678") :=
  ((c8_find_vat_candidates (pys "CIF: ES-B12345678")).2.2.2.2.1
    (pys "B12345678")).mpr (by decide)

/-!
## Stable descending sort

Python's `list.sort`/`sorted` with `reverse=True` is a stable descending
sort; any stable descending sort computes the same list, so an insertion
sort is used here.  `ge` is the non-strict "key not smaller" relation.
-/

/-- Insert `x` (a later element) into the already-sorted `l`: it goes
after every element whose key is not smaller (stability). -/
def insertDescBy {α : Type} (ge : α → α → Bool) (x : α) : List α → List α
  | [] => [x]
  | y :: ys => if ge x y && !(ge y x) then x :: y :: ys else y :: insertDescBy ge x ys

/-- Stable descending sort by `ge`. -/
def sortDescBy {α : Type} (ge : α → α → Bool) (l : List α) : List α :=
  l.foldl (fun acc x => insertDescBy ge x acc) []

theorem mem_insertDescBy {α : Type} {ge : α → α → Bool} {x z : α} {l : List α} :
    z ∈ insertDescBy ge x l ↔ z = x ∨ z ∈ l := by
  induction l with
  | nil => simp [insertDescBy]
  | cons y ys ih =>
    unfold insertDescBy
    split_ifs
    · simp
    · simp only [List.mem_cons, ih]
      tauto

theorem pairwise_insertDescBy {α : Type} {ge : α → α → Bool}
    (htot : ∀ a b, ge a b = true ∨ ge b a = true)
    (htr : ∀ a b c, ge a b = true → ge b c = true → ge a c = true)
    {l : List α} (hl : l.Pairwise (fun a b => ge a b = true)) (x : α) :
    (insertDescBy ge x l).Pairwise (fun a b => ge a b = true) := by
  induction l with
  | nil => simp [insertDescBy]
  | cons y ys ih =>
    rw [List.pairwise_cons] at hl
    unfold insertDescBy
    split_ifs with hcond
    · rw [Bool.and_eq_true] at hcond
      refine List.pairwise_cons.mpr ⟨?_, List.pairwise_cons.mpr hl⟩
      intro z hz
      rcases List.mem_cons.mp hz with hz | hz
      · exact hz ▸ hcond.1
      · exact htr x y z hcond.1 (hl.1 z hz)
    · have hyx : ge y x = true := by
        rcases htot x y with h | h
        · by_contra hyx
          apply hcond
          rw [h, Bool.true_and, Bool.not_eq_true'] at *
          simp [Bool.not_eq_true] at hyx ⊢
          exact hyx
        · exact h
      refine List.pairwise_cons.mpr ⟨?_, ih hl.2⟩
      intro z hz
      rcases mem_insertDescBy.mp hz with hz | hz
      · exact hz ▸ hyx
      · exact hl.1 z hz

theorem mem_sortDescBy {α : Type} {ge : α → α → Bool} {z : α} {l : List α} :
    z ∈ sortDescBy ge l ↔ z ∈ l := by
  suffices h : ∀ acc, z ∈ l.foldl (fun acc x => insertDescBy ge x acc) acc ↔
      z ∈ acc ∨ z ∈ l by
    have := h []
    simpa [sortDescBy] using this
  induction l with
  | nil => intro acc; simp
  | cons c cs ih =>
    intro acc
    rw [List.foldl_cons, ih, mem_insertDescBy]
    simp only [List.mem_cons]
    tauto

theorem pairwise_sortDescBy {α : Type} {ge : α → α → Bool}
    (htot : ∀ a b, ge a b = true ∨ ge b a = true)
    (htr : ∀ a b c, ge a b = true → ge b c = true → ge a c = true)
    (l : List α) :
    (sortDescBy ge l).Pairwise (fun a b => ge a b = true) := by
  suffices h : ∀ acc, acc.Pairwise (fun a b => ge a b = true) →
      (l.foldl (fun acc x => insertDescBy ge x acc) acc).Pairwise
        (fun a b => ge a b = true) by
    exact h [] (by simp)
  induction l with
  | nil => intro acc hacc; simpa using hacc
  | cons c cs ih =>
    intro acc hacc
    rw [List.foldl_cons]
    exact ih _ (pairwise_insertDescBy htot htr hacc c)

/-- The head of the sorted list dominates every element of the input. -/
theorem sortDescBy_head_ge {α : Type} {ge : α → α → Bool}
    (htot : ∀ a b, ge a b = true ∨ ge b a = true)
    (htr : ∀ a b c, ge a b = true → ge b c = true → ge a c = true)
    {l : List α} {b : α} {rest : List α}
    (h : sortDescBy ge l = b :: rest) :
    b ∈ l ∧ ∀ x ∈ l, ge b x = true := by
  have hmem : b ∈ l := mem_sortDescBy.mp (h ▸ List.mem_cons_self b rest)
  refine ⟨hmem, fun x hx => ?_⟩
  have hx2 : x ∈ b :: rest := h ▸ mem_sortDescBy.mpr hx
  rcases List.mem_cons.mp hx2 with hx2 | hx2
  · subst hx2
    rcases htot x x with hh | hh <;> exact hh
  · have hp := pairwise_sortDescBy htot htr l
    rw [h, List.pairwise_cons] at hp
    exact hp.1 x hx2

/-!
## Accent stripping and dates
-/

/-- NFD decomposition with combining marks removed, restricted to the
Latin letters occurring in this development (other characters have no
decomposition and are unchanged). -/
def stripAccentChar (c : Char) : Char :=
  if c = 'á' then 'a' else if c = 'é' then 'e' else if c = 'í' then 'i'
  else if c = 'ó' then 'o' else if c = 'ú' then 'u' else if c = 'ü' then 'u'
  else if c = 'ñ' then 'n' else if c = 'Á' then 'A' else if c = 'É' then 'E'
  else if c = 'Í' then 'I' else if c = 'Ó' then 'O' else if c = 'Ú' then 'U'
  else if c = 'Ü' then 'U' else if c = 'Ñ' then 'N' else c

/-- The class `[A-Za-z0-9 ÁÉÍÓÚáéíóú&.,\-]` of characters kept by
`strip_accents_punct`. -/
def allowedSAP (c : Char) : Bool :=
  ('A' ≤ c && c ≤ 'Z') || ('a' ≤ c && c ≤ 'z') || c.isDigit || c == ' ' ||
    c == '&' || c == '.' || c == ',' || c == '-' ||
    (pys "ÁÉÍÓÚáéíóú").contains c

/-- `re.sub(r"\s+", " ", s)`: collapse every whitespace run to one space. -/
def collapseWsAux : Bool → PyStr → PyStr
  | _, [] => []
  | prevWs, c :: rest =>
    if pySpace c then
      if prevWs then collapseWsAux true rest else ' ' :: collapseWsAux true rest
    else c :: collapseWsAux false rest

/-- `strip_accents_punct` (`main.py` lines 204–211, identical in
`providers/common.py`): drop combining marks, replace disallowed
characters by spaces, collapse whitespace, strip. -/
def strip_accents_punct (s : PyStr) : PyStr :=
  pyStrip (collapseWsAux false
    ((s.map stripAccentChar).map (fun c => if allowedSAP c then c else ' ')))

/-- A calendar date as `datetime.date` data. -/
structure DateYMD where
  year : ℕ
  month : ℕ
  day : ℕ
deriving DecidableEq, Repr

/-- Gregorian leap year (the rule used by `datetime`). -/
def isLeapYear (y : ℕ) : Bool := (y % 4 == 0 && !(y % 100 == 0)) || y % 400 == 0

/-- Days in a month. -/
def daysInMonth (y m : ℕ) : ℕ :=
  if m = 2 then (if isLeapYear y then 29 else 28)
  else if m = 4 ∨ m = 6 ∨ m = 9 ∨ m = 11 then 30 else 31

/-- Does `datetime(year, month, day)` (or a `strptime` of these fields)
succeed? -/
def validYMD (d : DateYMD) : Bool :=
  1 ≤ d.year && 1 ≤ d.month && d.month ≤ 12 && 1 ≤ d.day &&
    d.day ≤ daysInMonth d.year d.month

/-- Two base-10 digits, zero padded. -/
def pad2 (n : ℕ) : PyStr :=
  [Char.ofNat (48 + n / 10 % 10), Char.ofNat (48 + n % 10)]

/-- Four base-10 digits, zero padded. -/
def pad4 (n : ℕ) : PyStr :=
  [Char.ofNat (48 + n / 1000 % 10), Char.ofNat (48 + n / 100 % 10),
    Char.ofNat (48 + n / 10 % 10), Char.ofNat (48 + n % 10)]

/-- `date.isoformat()`. -/
def isoFormat (d : DateYMD) : PyStr :=
  pad4 d.year ++ ['-'] ++ pad2 d.month ++ ['-'] ++ pad2 d.day

/-- Python's tuple comparison on `(year, month, day)`, non-strict,
flipped: `dateGe a b` says `a` is not older than `b`. -/
def dateGe (a b : DateYMD) : Bool :=
  b.year < a.year || (b.year == a.year &&
    (b.month < a.month || (b.month == a.month && b.day ≤ a.day)))

/-- `re.split(r"/|-", s)`. -/
def splitBy (p : Char → Bool) : PyStr → List PyStr
  | [] => [[]]
  | c :: rest =>
    let r := splitBy p rest
    if p c then [] :: r
    else
      match r with
      | h :: t => (c :: h) :: t
      | [] => [[c]]

/-- `MONTHS_ES` (`providers/common.py` lines 41–55, identical in
`main.py`). -/
def MONTHS_ES : List (PyStr × ℕ) :=
  [(pys "ENERO", 1), (pys "FEBRERO", 2), (pys "MARZO", 3), (pys "ABRIL", 4),
   (pys "MAYO", 5), (pys "JUNIO", 6), (pys "JULIO", 7), (pys "AGOSTO", 8),
   (pys "SEPTIEMBRE", 9), (pys "SETIEMBRE", 9), (pys "OCTUBRE", 10),
   (pys "NOVIEMBRE", 11), (pys "DICIEMBRE", 12)]

/-- `MONTHS_ES.get(name)`. -/
def monthLookup (s : PyStr) : Option ℕ :=
  (MONTHS_ES.find? (fun e => e.1 == s)).map (fun e => e.2)

/-- `Fecha\s+Factura\s*[:#]?\s*(\d{1,2}/\d{1,2}/\d{4})` with
`re.IGNORECASE` (`providers/common.py` line 128). -/
def fechaFacturaPat : List RTok :=
  litsi "FECHA" ++ [wsPlus] ++ litsi "FACTURA" ++
    [wsStar, clsOpt (.oneOf [':', '#']), wsStar] ++
    grp 1 [digitR 1 2, lit1 '/', digitR 1 2, lit1 '/', digitN 4]

/-- `(\d{1,2}/\d{1,2}/\d{4})`. -/
def dateSlashPat : List RTok :=
  grp 1 [digitR 1 2, lit1 '/', digitR 1 2, lit1 '/', digitN 4]

/-- `(\d{1,2}-\d{1,2}-\d{4})`. -/
def dateDashPat : List RTok :=
  grp 1 [digitR 1 2, lit1 '-', digitR 1 2, lit1 '-', digitN 4]

/-- `(\d{1,2})\s+de\s+([A-Za-zÁÉÍÓÚáéíóú]+)\s+de\s+(\d{4})` with
`re.IGNORECASE`. -/
def textualDatePat : List RTok :=
  grp 1 [digitR 1 2] ++ [wsPlus] ++ litsi "DE" ++ [wsPlus] ++
    grp 2 [.cls (.union (.rngi 'A' 'Z') (.oneOfi (pys "ÁÉÍÓÚ"))) 1 none false] ++
    [wsPlus] ++ litsi "DE" ++ [wsPlus] ++ grp 3 [digitN 4]

/-- Split a captured `dd/mm/yyyy` (or dashed) string into its three
integer fields. -/
def parseDMYparts (s : PyStr) : Option (ℕ × ℕ × ℕ) :=
  match splitBy (fun c => c == '/' || c == '-') s with
  | [d, m, y] => some (digitsToNat d, digitsToNat m, digitsToNat y)
  | _ => none

/-- The labelled first branch of `providers/common.py parse_date_text`:
an "Fecha Factura" match returns immediately when its month is in
`[1,12]` and `strptime` accepts the date; otherwise fall through. -/
def labelDateResult (txt : PyStr) : Option PyStr :=
  match reSearch fechaFacturaPat txt with
  | none => none
  | some m =>
    match parseDMYparts (capStr txt 1 m) with
    | none => none
    | some (d, mth, y) =>
      if 1 ≤ mth ∧ mth ≤ 12 ∧ validYMD ⟨y, mth, d⟩ = true then
        some (isoFormat ⟨y, mth, d⟩)
      else none

/-- One generic match accepted as a candidate: month in `[1,12]`, year at
least 2018, and `strptime` succeeds. -/
def dmyFromMatch (txt : PyStr) (m : MatchInfo) : Option DateYMD :=
  match parseDMYparts (capStr txt 1 m) with
  | none => none
  | some (d, mth, y) =>
    if 1 ≤ mth ∧ mth ≤ 12 ∧ 2018 ≤ y ∧ validYMD ⟨y, mth, d⟩ = true then
      some ⟨y, mth, d⟩
    else none

/-- All valid generic day/month/year candidates of
`providers/common.py parse_date_text` (slash matches first, then dash
matches, as the pattern loop appends). -/
def genericDateCandidates (txt : PyStr) : List DateYMD :=
  ((findIter dateSlashPat txt).filterMap (dmyFromMatch txt)) ++
    ((findIter dateDashPat txt).filterMap (dmyFromMatch txt))

/-- The textual "D de MONTH de YYYY" fallback of
`providers/common.py parse_date_text` (with its 2018 floor). -/
def textualDateResult (txt : PyStr) : Option PyStr :=
  match reSearch textualDatePat txt with
  | none => none
  | some m =>
    let day := digitsToNat (capStr txt 1 m)
    let mon := monthLookup (pyUpper (strip_accents_punct (capStr txt 2 m)))
    let year := digitsToNat (capStr txt 3 m)
    match mon with
    | none => none
    | some mn =>
      if 2018 ≤ year then
        if validYMD ⟨year, mn, day⟩ = true then some (isoFormat ⟨year, mn, day⟩)
        else none
      else none

/-- `providers/common.py parse_date_text` (lines 126–170): labelled date
first (immediate return), then the most recent valid generic candidate,
then the textual pattern, else no date. -/
def parse_date_text (txt : PyStr) : Option PyStr :=
  match labelDateResult txt with
  | some iso => some iso
  | none =>
    match sortDescBy dateGe (genericDateCandidates txt) with
    | best :: _ => some (isoFormat best)
    | [] => textualDateResult txt

/-- `(\d{2}/\d{2}/\d{4})` (`main.py` line 473). -/
def mainDatePat1 : List RTok :=
  grp 1 [digitN 2, lit1 '/', digitN 2, lit1 '/', digitN 4]

/-- `(\d{2}-\d{2}-\d{4})` (`main.py` line 474). -/
def mainDatePat2 : List RTok :=
  grp 1 [digitN 2, lit1 '-', digitN 2, lit1 '-', digitN 4]

/-- `(\d{1,2}/\d{1,2}/\d{2})` (`main.py` line 475). -/
def mainDatePat3 : List RTok :=
  grp 1 [digitR 1 2, lit1 '/', digitR 1 2, lit1 '/', digitN 2]

/-- `Fecha\s+Factura\s*[:#]?\s*(\d{2}/\d{2}/\d{4})` with `re.IGNORECASE`
(`main.py` line 495). -/
def fechaFacturaMainPat : List RTok :=
  litsi "FECHA" ++ [wsPlus] ++ litsi "FACTURA" ++
    [wsStar, clsOpt (.oneOf [':', '#']), wsStar] ++
    grp 1 [digitN 2, lit1 '/', digitN 2, lit1 '/', digitN 4]

/-- One step of the `main.py` date loop: first match of the pattern,
`strptime` it (with Python's 1969 pivot for `%y`), abandon the pattern on
failure. -/
def tryMainPat (txt : PyStr) (pat : List RTok) (twoDigitYear : Bool) :
    Option PyStr :=
  match reSearch pat txt with
  | none => none
  | some m =>
    match parseDMYparts (capStr txt 1 m) with
    | none => none
    | some (d, mth, y) =>
      let y2 := if twoDigitYear then (if y ≤ 68 then 2000 + y else 1900 + y) else y
      if validYMD ⟨y2, mth, d⟩ = true then some (isoFormat ⟨y2, mth, d⟩) else none

/-- The textual "D de MONTH de YYYY" branch of `main.py parse_date_text`
(no year floor, unlike the `providers/common.py` variant). -/
def textualDateResultMain (txt : PyStr) : Option PyStr :=
  match reSearch textualDatePat txt with
  | none => none
  | some m =>
    let day := digitsToNat (capStr txt 1 m)
    let mon := monthLookup (pyUpper (strip_accents_punct (capStr txt 2 m)))
    let year := digitsToNat (capStr txt 3 m)
    match mon with
    | none => none
    | some mn =>
      if validYMD ⟨year, mn, day⟩ = true then some (isoFormat ⟨year, mn, day⟩)
      else none

/-- `main.py parse_date_text` (lines 471–501): the FIRST parseable match
of each numeric pattern in turn, then the textual pattern, then the
labelled pattern — no month filter beyond `strptime`, no year floor, and
no most-recent selection. -/
def parse_date_text_main (txt : PyStr) : Option PyStr :=
  match tryMainPat txt mainDatePat1 false with
  | some r => some r
  | none =>
    match tryMainPat txt mainDatePat2 false with
    | some r => some r
    | none =>
      match tryMainPat txt mainDatePat3 true with
      | some r => some r
      | none =>
        match textualDateResultMain txt with
        | some r => some r
        | none =>
          match reSearch fechaFacturaMainPat txt with
          | none => none
          | some m =>
            match parseDMYparts (capStr txt 1 m) with
            | none => none
            | some (d, mth, y) =>
              if validYMD ⟨y, mth, d⟩ = true then some (isoFormat ⟨y, mth, d⟩)
              else none

/-!
## Claim C5 — date parsing
-/

theorem dateGe_total (a b : DateYMD) : dateGe a b = true ∨ dateGe b a = true := by
  unfold dateGe
  simp only [Bool.or_eq_true, Bool.and_eq_true, decide_eq_true_eq, beq_iff_eq]
  omega

theorem dateGe_trans (a b c : DateYMD) (h1 : dateGe a b = true)
    (h2 : dateGe b c = true) : dateGe a c = true := by
  unfold dateGe at *
  simp only [Bool.or_eq_true, Bool.and_eq_true, decide_eq_true_eq, beq_iff_eq] at *
  omega

/-- Every accepted generic candidate has month in `[1,12]`, year at least
2018, and is a real calendar date. -/
theorem genericDateCandidates_bounds (txt : PyStr) :
    ∀ c ∈ genericDateCandidates txt,
      1 ≤ c.month ∧ c.month ≤ 12 ∧ 2018 ≤ c.year ∧ validYMD c = true := by
  intro c hc
  unfold genericDateCandidates at hc
  rw [List.mem_append] at hc
  rcases hc with hc | hc <;>
  · rw [List.mem_filterMap] at hc
    obtain ⟨m, _, hm⟩ := hc
    unfold dmyFromMatch at hm
    split at hm
    · exact absurd hm (by simp)
    · split_ifs at hm with hcond
      rw [Option.some_inj] at hm
      subst hm
      exact ⟨hcond.1, hcond.2.1, hcond.2.2.1, hcond.2.2.2⟩

/-- The date-parsing algorithm exactly as claim C5 words it: collect all
generic numeric day/month/year matches, keep those with month in `[1,12]`
and year not before the floor, and return the most recent in ISO form;
otherwise no date. -/
def parse_date_text_claim (txt : PyStr) : Option PyStr :=
  match sortDescBy dateGe (genericDateCandidates txt) with
  | best :: _ => some (isoFormat best)
  | [] => none

/-- C5 (counterexample): the claim fails on both variants of
`parse_date_text`.  In `providers/common.py`, a labelled "Fecha Factura"
date returns immediately even when a more recent valid date occurs in the
text; in `main.py`, the first-occurring match wins outright. -/
theorem c5_counterexample :
    parse_date_text (pys "Fecha Factura: 01/01/2020\n05/05/2023") =
      some (pys "2020-01-01") ∧
    parse_date_text_claim (pys "Fecha Factura: 01/01/2020\n05/05/2023") =
      some (pys "2023-05-05") ∧
    parse_date_text_main (pys "01/01/2020 05/05/2023") = some (pys "2020-01-01") ∧
    sortDescBy dateGe (genericDateCandidates (pys "01/01/2020 05/05/2023")) =
      [⟨2023, 5, 5⟩, ⟨2020, 1, 1⟩] ∧
    pys "2020-01-01" ≠ pys "2023-05-05" := by
  refine ⟨by decide, by decide, by decide, by decide, by decide⟩

/-- C5 (amended): in `providers/common.py parse_date_text`, WHEN the
labelled "Fecha Factura" branch does not fire, the parser collects all
numeric day/month/year matches, keeps those with month in `[1,12]`, year
not before the 2018 floor and a valid calendar day, and returns the most
recent such date in ISO form (not the first-occurring match); with no
candidate it falls back to the textual pattern and otherwise returns no
date, never raising.  (The `main.py` variant instead returns the first
parseable match of each pattern in turn.) -/
theorem c5_amended (txt : PyStr) (b : DateYMD) (rest : List DateYMD)
    (hlabel : labelDateResult txt = none)
    (hsort : sortDescBy dateGe (genericDateCandidates txt) = b :: rest) :
    parse_date_text txt = some (isoFormat b) ∧
    b ∈ genericDateCandidates txt ∧
    (∀ c ∈ genericDateCandidates txt, dateGe b c = true) ∧
    (∀ c ∈ genericDateCandidates txt,
      1 ≤ c.month ∧ c.month ≤ 12 ∧ 2018 ≤ c.year ∧ validYMD c = true) := by
  have hhead := sortDescBy_head_ge dateGe_total dateGe_trans hsort
  refine ⟨?_, hhead.1, hhead.2, genericDateCandidates_bounds txt⟩
  unfold parse_date_text
  rw [hlabel, hsort]

/-- C5 (witness): the amended claim at a concrete two-date text with no
label: the most recent date wins. -/
theorem c5_witness :
    parse_date_text (pys "05/05/2023 01/01/2020") =
      some (isoFormat ⟨2023, 5, 5⟩) :=
  (c5_amended (pys "05/05/2023 01/01/2020") ⟨2023, 5, 5⟩ [⟨2020, 1, 1⟩]
    (by decide) (by decide)).1

/-!
## The generic parser (`providers/generic.py`)
-/

/-- Python `str.splitlines()` (`\n`, `\r`, `\r\n`; no trailing empty
line). -/
def splitlinesAux (acc : PyStr) : PyStr → List PyStr
  | [] => if acc.isEmpty then [] else [acc.reverse]
  | '\r' :: '\n' :: rest => acc.reverse :: splitlinesAux [] rest
  | '\r' :: rest => acc.reverse :: splitlinesAux [] rest
  | '\n' :: rest => acc.reverse :: splitlinesAux [] rest
  | c :: rest => splitlinesAux (c :: acc) rest

/-- Python `text.splitlines()`. -/
def pySplitlines (s : PyStr) : List PyStr := splitlinesAux [] s

/-- `[ln.strip() for ln in text.splitlines() if ln.strip()]`. -/
def strippedLines (text : PyStr) : List PyStr :=
  ((pySplitlines text).map pyStrip).filter (fun l => !l.isEmpty)

/-- `NUM_MONEY_RE = ([€]?\d[\d.,]*)\s*(?!%)`
(`providers/common.py` line 56). -/
def numMoneyPat : List RTok :=
  grp 1 [clsOpt (.lit '€'), .cls .digit 1 (some 1) false,
    .cls (.union .digit (.oneOf ['.', ','])) 0 none false] ++
    [wsStar, .nla (.lit '%')]

/-- `NUM_PCT_RE = (\d{1,2}(?:[.,]\d{1,2})?)\s*%`
(`providers/common.py` line 57). -/
def numPctPat : List RTok :=
  grp 1 [digitR 1 2, optSeq [.cls (.oneOf ['.', ',']) 1 (some 1) false, digitR 1 2]] ++
    [wsStar, lit1 '%']

/-- `VAT_ROW_RE = (\d{1,2}(?:[.,]\d{1,2})?)\s*%[\s\S]*?(\d[\d.,]*)[\s\S]*?(\d[\d.,]*)`
(`providers/common.py` lines 58–60). -/
def vatRowPat : List RTok :=
  grp 1 [digitR 1 2, optSeq [.cls (.oneOf ['.', ',']) 1 (some 1) false, digitR 1 2]] ++
    [wsStar, lit1 '%', clsStarL .anyc] ++
    grp 2 [.cls .digit 1 (some 1) false,
      .cls (.union .digit (.oneOf ['.', ','])) 0 none false] ++
    [clsStarL .anyc] ++
    grp 3 [.cls .digit 1 (some 1) false,
      .cls (.union .digit (.oneOf ['.', ','])) 0 none false]

/-- `LABELS["base"]` of `providers/generic.py` (compiled per pattern with
`re.IGNORECASE`). -/
def gLabelsBase : List (List RTok) :=
  [litsi "BASE" ++ [wsPlus] ++ litsi "IMPONIBLE",
   litsi "IMPORTE" ++ [wsPlus] ++ litsi "BASE",
   [.wb] ++ litsi "BI" ++ [.wb],
   litsi "NETO",
   litsi "SUBTOTAL",
   litsi "TOTAL" ++ [wsPlus] ++ litsi "BASE" ++ [wsPlus] ++ litsi "IMPONIBLE"]

/-- `LABELS["iva"]` of `providers/generic.py`. -/
def gLabelsIva : List (List RTok) :=
  [litsi "CUOTA" ++ [wsStar] ++ litsi "IVA",
   litsi "IMPORTE" ++ [wsStar] ++ litsi "IVA",
   [.wb] ++ litsi "IVA" ++ [.wb],
   litsi "TOTAL" ++ [wsStar] ++ litsi "IVA" ++ [.wb],
   litsi "TOTAL" ++ [wsPlus] ++ litsi "IMPUESTO"]

/-- `LABELS["total"]` of `providers/generic.py`. -/
def gLabelsTotal : List (List RTok) :=
  [litsi "TOTAL" ++
     [wsStar,
      .alt [litsi "FACTURA", litsi "A" ++ [wsStar] ++ litsi "PAGAR",
        litsi "EUR", [lit1 '€'], []],
      .wb],
   [.wb] ++ litsi "TOTAL" ++ [.wb],
   litsi "TOTAL" ++ [wsPlus] ++ litsi "DE" ++ [wsPlus] ++ litsi "LA" ++
     [wsPlus] ++ litsi "FACTURA"]

/-- The role a money candidate is being scored for. -/
inductive Role where
  | base
  | iva
  | total
deriving DecidableEq, Repr

/-- Python float truthiness of an optional number. -/
def truthyQ : Option ℚ → Bool
  | none => false
  | some q => !(q == 0)

/-- Python `max` of two numbers. -/
def pyMax (a b : ℚ) : ℚ := if a ≤ b then b else a

/-- Python `abs`. -/
def pyAbs (a : ℚ) : ℚ := if a < 0 then -a else a

/-- The `score` closure of `GenericParser._pick_money_candidate`
(`providers/generic.py` lines 43–61). -/
def scoreCand (role : Role) (baseHint ivaHint pctHint : Option ℚ)
    (x : ℚ × Bool × Bool) : ℚ :=
  let s : ℚ := 0
  let s := if x.2.1 then s + 3 else s
  let s := if x.2.2 then s + 1 else s
  let s :=
    if role = .iva ∧ truthyQ baseHint = true then
      (if x.1 ≤ (baseHint.getD 0) * (35 / 100) then s + 3 else s)
    else s
  if role = .total then
    let target : Option ℚ :=
      match baseHint, pctHint with
      | some b, some p => some (b * (1 + p))
      | _, _ =>
        match baseHint, ivaHint with
        | some b, some i => some (b + i)
        | _, _ => none
    match target with
    | some t =>
      if t ≠ 0 then s + pyMax 0 (3 - pyAbs (x.1 - t) / pyMax 1 t * 10) else s
    | none => s
  else s

/-- `GenericParser._pick_money_candidate`: stable descending sort by
score, first element (candidates are `(value, has_euro, has_decimals)`
triples). -/
def pickMoneyCandidate (role : Role) (baseHint ivaHint pctHint : Option ℚ)
    (cands : List (ℚ × Bool × Bool)) : Option ℚ :=
  match sortDescBy (fun x y =>
      decide (scoreCand role baseHint ivaHint pctHint y ≤
        scoreCand role baseHint ivaHint pctHint x)) cands with
  | x :: _ => some x.1
  | [] => none

/-- The candidate window of `_find_value_by_label_smart` at line `i`:
`[ln] + lines[i+1:i+5]`, each scanned with `NUM_MONEY_RE`, flagging
whether the line holds a `€` and whether the matched text has an explicit
separator. -/
def windowCands (lines : List PyStr) (i : ℕ) : List (ℚ × Bool × Bool) :=
  ((lines.drop i).take 5).flatMap (fun w =>
    let euro := w.contains '€'
    (findIter numMoneyPat w).filterMap (fun m =>
      match norm_num (some (capStr w 1 m)) with
      | none => none
      | some v =>
        some (v, euro, (capStr w 1 m).contains ',' || (capStr w 1 m).contains '.')))

/-- `GenericParser._find_value_by_label_smart` (lines 66–93): for each
pattern in order, for each line matching it, pick the best candidate of
the five-line window; first hit wins. -/
def labelSmart (lines : List PyStr) (pats : List (List RTok)) (role : Role)
    (baseHint ivaHint pctHint : Option ℚ) : Option ℚ :=
  pats.findSome? (fun pat =>
    lines.enum.findSome? (fun p =>
      if reTest pat p.2 then
        pickMoneyCandidate role baseHint ivaHint pctHint (windowCands lines p.1)
      else none))

/-- The VAT-breakdown sums of `GenericParser.parse` (lines 97–106):
rounded sums of all row bases and row quotas, when any row parsed. -/
def gpTables (text : PyStr) : Option ℚ × Option ℚ :=
  let pairs := (findIter vatRowPat text).filterMap (fun m =>
    match norm_num (some (capStr text 2 m)), norm_num (some (capStr text 3 m)) with
    | some b, some c => some (b, c)
    | _, _ => none)
  if pairs.isEmpty then (none, none)
  else (some (pyRound 2 (pairs.map Prod.fst).sum),
        some (pyRound 2 (pairs.map Prod.snd).sum))

/-- The standalone-rate scan of `GenericParser.parse` (lines 107–110). -/
def gpPct (text : PyStr) : Option ℚ :=
  match reSearch numPctPat text with
  | none => none
  | some m => to_decimal_pct (some (.inr (capStr text 1 m)))

/-- `base` in `GenericParser.parse` (lines 111–115). -/
def gpBase (text : PyStr) : Option ℚ :=
  match (gpTables text).1 with
  | some b => some b
  | none => labelSmart (strippedLines text) gLabelsBase .base none none none

/-- `iva` in `GenericParser.parse` before the disambiguation guard
(lines 116–122). -/
def gpIva (text : PyStr) : Option ℚ :=
  match (gpTables text).2 with
  | some i => some i
  | none =>
    labelSmart (strippedLines text) gLabelsIva .iva (gpBase text) none (gpPct text)

/-- `tot` from the label scan (lines 123–130). -/
def gpTotLabel (text : PyStr) : Option ℚ :=
  labelSmart (strippedLines text) gLabelsTotal .total (gpBase text) (gpIva text)
    (gpPct text)

/-- Does the disambiguation guard of lines 131–134 fire on this
tax-amount value?  (`float(iva).is_integer() and int(iva) in (4, 10, 21)`.) -/
def gpGuardFires (v : ℚ) : Prop :=
  v.den = 1 ∧ (v.num = 4 ∨ v.num = 10 ∨ v.num = 21)

instance (v : ℚ) : Decidable (gpGuardFires v) := by
  unfold gpGuardFires; infer_instance

/-- `iva` after the disambiguation guard: nulled when the guard fires. -/
def gpIvaGuarded (text : PyStr) : Option ℚ :=
  match gpIva text with
  | some v => if gpGuardFires v then none else some v
  | none => none

/-- `pct` after the disambiguation guard: set to `int(iva)/100` when the
guard fires and no rate had been found. -/
def gpPctGuarded (text : PyStr) : Option ℚ :=
  match gpIva text with
  | some v =>
    if gpGuardFires v then
      match gpPct text with
      | none => some ((v.num : ℚ) / 100)
      | some p => some p
    else gpPct text
  | none => gpPct text

/-- `pct` after the `rate = tax/base` derivation of lines 135–136. -/
def gpPctFinal (text : PyStr) : Option ℚ :=
  match gpPctGuarded text with
  | some p => some p
  | none =>
    match gpBase text, gpIvaGuarded text with
    | some b, some i =>
      if b ≠ 0 ∧ i ≠ 0 ∧ 0 < b then some (pyRound 6 (i / b)) else none
    | _, _ => none

/-- `tot` after the `total = base + tax` derivation of lines 137–138. -/
def gpTotDerived (text : PyStr) : Option ℚ :=
  match gpTotLabel text with
  | some t => some t
  | none =>
    match gpBase text, gpIvaGuarded text with
    | some b, some i => some (pyRound 2 (b + i))
    | _, _ => none

/-- `tot` after the implausible-total recomputation of lines 139–143. -/
def gpTotFinal (text : PyStr) : Option ℚ :=
  match gpBase text, gpTotDerived text with
  | some b, some t =>
    if b ≠ 0 ∧ t ≠ 0 ∧ t < b then
      match gpPctFinal text with
      | some p =>
        if p ≠ 0 then some (pyRound 2 (b * (1 + p)))
        else
          match gpIvaGuarded text with
          | some i => if i ≠ 0 then some (pyRound 2 (b + i)) else gpTotDerived text
          | none => gpTotDerived text
      | none =>
        match gpIvaGuarded text with
        | some i => if i ≠ 0 then some (pyRound 2 (b + i)) else gpTotDerived text
        | none => gpTotDerived text
    else gpTotDerived text
  | _, _ => gpTotDerived text

/-- One extracted invoice record (the dictionary the parsers emit;
`pctIVA` is the `"%IVA"` key). -/
structure Row where
  fecha_factura : Option PyStr := none
  numero_factura : PyStr
  empresa : Option PyStr := none
  CIF : Option PyStr := none
  importe_base : Option ℚ := none
  pctIVA : Option ℚ := none
  IVA : Option ℚ := none
  importe_total : Option ℚ := none
  Notas : PyStr := []
deriving DecidableEq, Repr

/-- `GenericParser.parse` (`providers/generic.py` lines 95–156), with
`path.stem` supplied as `stem`. -/
def genericParse (text : PyStr) (stem : PyStr) : List Row :=
  [{ numero_factura := stem,
     importe_base := gpBase text,
     pctIVA := gpPctFinal text,
     IVA := gpIvaGuarded text,
     importe_total := gpTotFinal text,
     Notas := [] }]

/-!
## `main.py` amount extraction (lines 144–200 and 516–607)
-/

/-- `NUM_RE = ([€]?[0-9][0-9.,]*)` (`main.py` line 516). -/
def numMainPat : List RTok :=
  grp 1 [clsOpt (.lit '€'), .cls .digit 1 (some 1) false,
    .cls (.union .digit (.oneOf ['.', ','])) 0 none false]

/-- `main.py` `VAT_ROW_RE` (lines 541–543): like the provider one but the
gaps are `[^\n\r]*?`. -/
def vatRowMainPat : List RTok :=
  grp 1 [digitR 1 2, optSeq [.cls (.oneOf ['.', ',']) 1 (some 1) false, digitR 1 2]] ++
    [wsStar, lit1 '%', clsStarL .notCrLf] ++
    grp 2 [.cls .digit 1 (some 1) false,
      .cls (.union .digit (.oneOf ['.', ','])) 0 none false] ++
    [clsStarL .notCrLf] ++
    grp 3 [.cls .digit 1 (some 1) false,
      .cls (.union .digit (.oneOf ['.', ','])) 0 none false]

/-- `LABELS["base"]` of `main.py` (lines 146–158). -/
def mLabelsBase : List (List RTok) :=
  [litsi "BASE" ++ [wsPlus] ++ litsi "IMPONIBLE",
   litsi "IMPORTE" ++ [wsPlus] ++ litsi "BASE",
   [.wb] ++ litsi "BI" ++ [.wb],
   litsi "NETO",
   litsi "SUBTOTAL",
   litsi "IMPORTE" ++ [wsPlus] ++ litsi "DEL" ++ [wsPlus] ++ litsi "PRODUCTO" ++
     [wsStar, lit1 '(', wsStar] ++ litsi "BASE" ++ [wsPlus] ++ litsi "IMPONIBLE" ++
     [wsStar, lit1 ')'],
   litsi "TOTAL" ++ [wsStar] ++ litsi "SI" ++ [.wb],
   litsi "TOTAL" ++ [wsStar] ++ litsi "SI" ++ [wsStar, lit1 '('] ++ litsi "EUR" ++ [lit1 ')'],
   litsi "NET" ++ [wsPlus] ++ litsi "AMOUNT",
   litsi "PRECIO" ++ [wsPlus] ++ litsi "TOTAL" ++ [wsStar, lit1 '(', wsStar] ++
     litsi "IVA" ++ [wsStar] ++ litsi "EXCLUIDO" ++ [wsStar, lit1 ')'],
   litsi "TOTAL" ++ [wsPlus] ++ litsi "BASE" ++ [wsPlus] ++ litsi "IMPONIBLE"]

/-- `LABELS["iva"]` of `main.py` (lines 160–169). -/
def mLabelsIva : List (List RTok) :=
  [litsi "CUOTA" ++ [wsStar] ++ litsi "IVA",
   litsi "IMPORTE" ++ [wsStar] ++ litsi "IVA",
   [.wb] ++ litsi "IVA" ++ [.wb],
   litsi "TOTAL" ++ [wsStar] ++ litsi "IVA" ++ [.wb],
   litsi "TOTAL" ++ [wsPlus] ++ litsi "IMPUESTO",
   litsi "VAT" ++ [.wb],
   litsi "IVA" ++ [lit1 '/'] ++ litsi "IGIC" ++ [lit1 '/'] ++ litsi "IPSI",
   litsi "IVANGICAPSI"]

/-- `LABELS["pct"]` of `main.py` (lines 171–176). -/
def mLabelsPct : List (List RTok) :=
  [litsi "TASA" ++ [wsStar] ++ litsi "IVA" ++ [.wb],
   [lit1 '%', wsStar] ++ litsi "IVA" ++ [.wb],
   litsi "IVA" ++ [wsStar, digitR 1 2,
     optSeq [.cls (.oneOf ['.', ',']) 1 (some 1) false, digitR 1 2], wsStar, lit1 '%'],
   litsi "VAT" ++ [wsStar, digitR 1 2,
     optSeq [.cls (.oneOf ['.', ',']) 1 (some 1) false, digitR 1 2], wsStar, lit1 '%']]

/-- `LABELS["total"]` of `main.py` (lines 178–185). -/
def mLabelsTotal : List (List RTok) :=
  [litsi "TOTAL" ++
     [wsStar,
      .alt [litsi "FACTURA", litsi "A" ++ [wsStar] ++ litsi "PAGAR",
        litsi "EUR", [lit1 '€'], []],
      .wb],
   [.wb] ++ litsi "TOTAL" ++ [.wb],
   litsi "TOTAL" ++ [wsStar] ++ litsi "TII" ++ [.wb],
   litsi "TOTAL" ++ [wsStar] ++ litsi "TIL" ++ [.wb],
   litsi "TOTAL" ++ [wsPlus] ++ litsi "DE" ++ [wsPlus] ++ litsi "LA" ++
     [wsPlus] ++ litsi "FACTURA",
   litsi "TOTAL" ++ [wsPlus] ++ litsi "AMOUNT"]

/-- `main.py` `_find_value_by_label_patterns` (lines 519–538): for each
pattern and each matching line, the first parseable `NUM_RE` match on the
label line, then on each of the next `max_down = 4` lines. -/
def findValueByLabel (lines : List PyStr) (pats : List (List RTok)) : Option ℚ :=
  pats.findSome? (fun pat =>
    lines.enum.findSome? (fun p =>
      if reTest pat p.2 then
        ((lines.drop p.1).take 5).findSome? (fun w =>
          match reSearch numMainPat w with
          | none => none
          | some m => norm_num (some (capStr w 1 m)))
      else none))

/-- Truncating conversion `int(r * 100)` on an exact rational. -/
def pyIntOfQ (q : ℚ) : ℤ := q.num.tdiv q.den

/-- Decimal digits of a natural number. -/
def natDigitsAux : ℕ → ℕ → PyStr
  | 0, _ => []
  | _ + 1, 0 => []
  | fuel + 1, n => natDigitsAux fuel (n / 10) ++ [Char.ofNat (48 + n % 10)]

/-- `str(n)` for a natural number. -/
def natToStr (n : ℕ) : PyStr := if n = 0 then ['0'] else natDigitsAux (n + 1) n

/-- `str(z)` for an integer. -/
def intToStr (z : ℤ) : PyStr :=
  if z < 0 then '-' :: natToStr z.natAbs else natToStr z.natAbs

/-- Lexicographic (code-point) strict order on strings, as Python
compares them. -/
def strLt : PyStr → PyStr → Bool
  | [], [] => false
  | [], _ :: _ => true
  | _ :: _, [] => false
  | a :: as, b :: bs => if a < b then true else if b < a then false else strLt as bs

/-- Python `sorted` on strings (ascending, stable). -/
def sortStrAsc (l : List PyStr) : List PyStr :=
  sortDescBy (fun a b => !(strLt a b)) l

/-- Python `"sep".join(parts)`. -/
def pyJoin (sep : PyStr) : List PyStr → PyStr
  | [] => []
  | [x] => x
  | x :: rest => x ++ sep ++ pyJoin sep rest

/-- `main.py` `parse_vat_rows_sum` (lines 546–566): the rounded sums of
all VAT-row bases and quotas, plus, when more than one distinct rate was
seen, a note listing the sorted distinct `NN%` strings. -/
def parse_vat_rows_sum (text : PyStr) :
    Option ℚ × Option ℚ × Option PyStr :=
  let rows := (findIter vatRowMainPat text).filterMap (fun m =>
    match norm_num (some (capStr text 2 m)), norm_num (some (capStr text 3 m)) with
    | some b, some c =>
      some (b, c, to_decimal_pct (some (.inr (capStr text 1 m))))
    | _, _ => none)
  if rows.isEmpty then (none, none, none)
  else
    let bases := rows.map (fun r => r.1)
    let cuotas := rows.map (fun r => r.2.1)
    let rates := rows.filterMap (fun r => r.2.2)
    let nota :=
      if 1 < (dedupF rates).length then
        some (pys "IVAs: " ++ pyJoin (pys "+")
          (sortStrAsc (dedupF (rates.map (fun r =>
            intToStr (pyIntOfQ (r * 100)) ++ ['%'])))))
      else none
    (some (pyRound 2 bases.sum), some (pyRound 2 cuotas.sum), nota)

/-- The `pct` label scan of `parse_amounts_generic` (lines 584–591): the
loop breaks at the first label match that contains an `NN%` inside the
matched text, even when the percentage fails to parse. -/
def mainPct (text : PyStr) : Option ℚ :=
  (mLabelsPct.findSome? (fun pat =>
    match reSearch pat text with
    | none => none
    | some m =>
      match reSearch numPctPat (matchStr text m) with
      | none => none
      | some mm =>
        some (to_decimal_pct (some (.inr (capStr (matchStr text m) 1 mm)))))).join

/-- The base-label scan of `parse_amounts_generic`. -/
def mainBaseLabel (text : PyStr) : Option ℚ :=
  findValueByLabel (strippedLines text) mLabelsBase

/-- The IVA-label scan of `parse_amounts_generic`. -/
def mainIvaLabel (text : PyStr) : Option ℚ :=
  findValueByLabel (strippedLines text) mLabelsIva

/-- The total-label scan of `parse_amounts_generic`. -/
def mainTotLabel (text : PyStr) : Option ℚ :=
  findValueByLabel (strippedLines text) mLabelsTotal

/-- The base after consolidation with the VAT-row table (line 594:
replace by the table sum when no label base was found, or when the label
base is truthy and the table sum is at least 90% of it). -/
def mainBaseFinal (text : PyStr) : Option ℚ :=
  match (parse_vat_rows_sum text).1, mainBaseLabel text with
  | some bt, none => some bt
  | some bt, some b => if b ≠ 0 ∧ b * (90 / 100) ≤ bt then some bt else some b
  | none, b => b

/-- The IVA after consolidation with the VAT-row table (line 596). -/
def mainIvaFinal (text : PyStr) : Option ℚ :=
  match (parse_vat_rows_sum text).2.1, mainIvaLabel text with
  | some it, none => some it
  | some it, some i => if i ≠ 0 ∧ i * (90 / 100) ≤ it then some it else some i
  | none, i => i

/-- The total after the `base + iva` derivation (lines 598–599). -/
def mainTotFinal (text : PyStr) : Option ℚ :=
  match mainTotLabel text with
  | some t => some t
  | none =>
    match mainBaseFinal text, mainIvaFinal text with
    | some b, some i => some (pyRound 2 (b + i))
    | _, _ => none

/-- `main.py` `parse_amounts_generic` (lines 569–607), as the tuple
`(importe_base, IVA, importe_total, %IVA)`. -/
def parse_amounts_generic (text : PyStr) :
    Option ℚ × Option ℚ × Option ℚ × Option ℚ :=
  (mainBaseFinal text, mainIvaFinal text, mainTotFinal text, mainPct text)

/-!
## Claim C6 — the disambiguation guard of the generic parser
-/

/-- C6 (counterexample): on a text whose selected tax-amount candidate is
the canonical integer 10 but where a 21% rate was already detected, the
candidate is removed, yet it is NOT reassigned to the rate field (the
rate stays 0.21, not 10/100 = 0.10), and the tax amount is NOT
re-derived: the emitted row carries no tax amount at all (and hence no
derived total). -/
theorem c6_counterexample :
    gpIva (pys "BASE IMPONIBLE 100,00\nIVA 10\n21 %") = some 10 ∧
    gpGuardFires 10 ∧
    genericParse (pys "BASE IMPONIBLE 100,00\nIVA 10\n21 %") (pys "f") =
      [{ numero_factura := pys "f", importe_base := some 100,
         pctIVA := some (21 / 100 : ℚ), IVA := none, importe_total := none,
         Notas := [] }] ∧
    (21 / 100 : ℚ) ≠ (10 : ℚ) / 100 := by
  refine ⟨by decide, by decide, by decide, by decide⟩

/-- C6 (amended): when the selected tax-amount candidate is an integer
equal to 4, 10 or 21, it is removed from the tax-amount field; it is
reassigned to the rate field (as value/100) ONLY when no rate had been
detected, an already-detected rate being kept instead; and the tax amount
is left empty rather than re-derived, so no total is derived from it
either. -/
theorem c6_amended (text stem : PyStr) (v : ℚ)
    (hiva : gpIva text = some v) (hg : gpGuardFires v) :
    ∀ r ∈ genericParse text stem,
      r.IVA = none ∧
      (gpPct text = none → r.pctIVA = some ((v.num : ℚ) / 100)) ∧
      (∀ p, gpPct text = some p → r.pctIVA = some p) ∧
      (gpTotLabel text = none → r.importe_total = none) := by
  intro r hr
  rw [genericParse, List.mem_singleton] at hr
  subst hr
  have hivag : gpIvaGuarded text = none := by
    simp only [gpIvaGuarded, hiva, if_pos hg]
  refine ⟨hivag, ?_, ?_, ?_⟩
  · intro hpct
    show gpPctFinal text = _
    simp only [gpPctFinal, gpPctGuarded, hiva, if_pos hg, hpct]
  · intro p hpct
    show gpPctFinal text = _
    simp only [gpPctFinal, gpPctGuarded, hiva, if_pos hg, hpct]
  · intro htot
    show gpTotFinal text = _
    have hder : gpTotDerived text = none := by
      simp only [gpTotDerived, htot, hivag]
      cases gpBase text <;> rfl
    simp only [gpTotFinal, hder]
    cases gpBase text <;> rfl

/-- C6 (witness): the amended claim at the concrete text
`"BASE IMPONIBLE 100,00\nIVA 21"`: the candidate 21 is dropped from the
amount field, becomes the rate 0.21, and no amount is re-derived. -/
theorem c6_witness :
    ∃ r ∈ genericParse (pys "BASE IMPONIBLE 100,00\nIVA 21") (pys "f"),
      r.IVA = none ∧ r.pctIVA = some ((21 : ℚ) / 100) ∧
        r.importe_total = none := by
  have hmem :
      ({ numero_factura := pys "f", importe_base := some 100,
         pctIVA := some (21 / 100 : ℚ), IVA := none, importe_total := none,
         Notas := [] } : Row) ∈
        genericParse (pys "BASE IMPONIBLE 100,00\nIVA 21") (pys "f") := by decide
  have h := c6_amended (pys "BASE IMPONIBLE 100,00\nIVA 21") (pys "f") 21
    (by decide) (by decide) _ hmem
  refine ⟨_, hmem, h.1, ?_, h.2.2.2 (by decide)⟩
  have h21 := h.2.1 (by decide)
  rw [h21]
  norm_num

/-!
## Vendor resolution (`main.py` lines 37–119 and 347–458)
-/

/-- `CLIENT_NAME_KEYWORDS` (`main.py` lines 39–44). -/
def CLIENT_NAME_KEYWORDS : List PyStr :=
  [pys "ARAGONESA DE CONDUCCIONES Y REFRIGERACION",
   pys "ARAGONESA DE CONDUCCIONES", pys "ACR SC", pys "ACR S.C."]

/-- `KNOWN_VENDOR_HINTS` (`main.py` lines 47–63). -/
def KNOWN_VENDOR_HINTS : List PyStr :=
  [pys "LEROY MERLIN", pys "SALVADOR ESCODA", pys "ALCAMPO", pys "REPSOL",
   pys "NORAUTO", pys "NOROTO", pys "REMLE", pys "AMAZON",
   pys "CREATORS OF TOMORROW", pys "WIESEMANN",
   pys "INDUSTRIAS REUNIDAS SANITARIAS", pys "ARAGONESA DE SERVICIOS ITV",
   pys "GASOLEOS MERCADAIZ", pys "XIAOJIE WANG", pys "SORPRESA HOGAR"]

/-- `KNOWN_VATS_BY_BRAND` (`main.py` lines 108–119). -/
def KNOWN_VATS_BY_BRAND : List (PyStr × List PyStr) :=
  [(pys "AMAZON",
    [pys "ESN0186600C", pys "ESW0264006H", pys "DE814584193",
     pys "FR12487773327", pys "IT08973230967", pys "ESW0184081H",
     pys "PL5262907815"])]

/-- `VENDOR_OVERRIDES` (`main.py` lines 68–105): `(pattern, canonical
name, forced tax ID or none)`, all patterns compiled with `re.I`. -/
def VENDOR_OVERRIDES : List (List RTok × PyStr × Option PyStr) :=
  [(litsi "LEROY" ++ [wsPlus] ++ litsi "MERLIN",
    pys "LEROY MERLIN ESPAÑA, S.L.U.", some (pys "B84818442")),
   ([.wb] ++ litsi "ALCAMPO" ++ [.wb],
    pys "ALCAMPO S.A.", some (pys "A28581882")),
   (litsi "REPSOL" ++ [wsPlus] ++ litsi "SOLUCIONES" ++ [wsPlus] ++
      litsi "ENERGETIC",
    pys "REPSOL SOLUCIONES ENERGETICAS, S.A.", some (pys "A80298839")),
   ([.alt [litsi "NORAUTO", litsi "NOROTO"]],
    pys "NOROTO S.A.U.", some (pys "A78119773")),
   (litsi "SALVADOR" ++ [wsPlus] ++ litsi "ESCODA",
    pys "SALVADOR ESCODA S.A.", some (pys "A08710006")),
   (litsi "REMLE", pys "REMLE S.A.", some (pys "A08388811")),
   (litsi "AMAZON", pys "AMAZON (ver detalle en factura)", none),
   (litsi "SHENZHEN" ++ [wsPlus] ++ litsi "GAOCHENG",
    pys "SHENZHEN GAOCHENG ELECTRONIC COMMERCE CO., LTD.",
    some (pys "ESN0050580J")),
   ([.alt [litsi "CREATORS" ++ [wsPlus] ++ litsi "OF" ++ [wsPlus] ++
        litsi "TOMORROW", litsi "WIESEMANN"]],
    pys "CREATORS OF TOMORROW GMBH", some (pys "N27643081")),
   (litsi "ARAGONESA" ++ [wsPlus] ++ litsi "DE" ++ [wsPlus] ++
      litsi "SERVICIOS" ++ [wsPlus] ++ litsi "ITV",
    pys "ARAGONESA DE SERVICIOS ITV, S.A.", none),
   ([.alt [litsi "INDUSTRIAS" ++ [wsPlus] ++ litsi "REUNIDAS" ++ [wsPlus] ++
        litsi "SANITARIAS", litsi "INDUSAN"]],
    pys "INDUSTRIAS REUNIDAS SANITARIAS S.L.", some (pys "B50040005")),
   ([.alt [litsi "GASOLEOS" ++ [wsPlus] ++ litsi "MERCADAIZ",
      litsi "VIUDA" ++ [wsPlus] ++ litsi "DE" ++ [wsPlus] ++ litsi "LONDAIZ"]],
    pys "VIUDA DE LONDAIZ Y SOBRINOS DE L. MERCADER, S.A.",
    some (pys "A20004008"))]

/-- `LEGAL_SUFFIXES` (`main.py` lines 136–141), searched with `re.I`. -/
def LEGAL_SUFFIXES : List (List RTok) :=
  [[.wb, liti1 'S', clsOpt (.lit '.'), liti1 'A', clsOpt (.lit '.'),
    .cls (.liti 'U') 0 (some 1) false, clsOpt (.lit '.'), .wb],
   [.wb, liti1 'S', clsOpt (.lit '.'), liti1 'L', clsOpt (.lit '.'),
    .cls (.liti 'U') 0 (some 1) false, clsOpt (.lit '.'), .wb],
   [.wb, liti1 'S', clsOpt (.lit '.'), liti1 'C', clsOpt (.lit '.'), .wb],
   [.wb] ++ litsi "COOP" ++ [.wb]]

/-- `ADDRESS_TOKENS` (`main.py` lines 188–200), used with `re.I`. -/
def ADDRESS_TOKENS : List (List RTok) :=
  [[.wb] ++ litsi "CALLE" ++ [.wb],
   [.wb] ++ litsi "CL" ++ [.wb],
   [.wb] ++ litsi "C" ++ [lit1 '/', .wb],
   [.wb] ++ litsi "AVD" ++ [.cls (.liti 'A') 0 (some 1) false, .wb],
   [.wb] ++ litsi "CRTA" ++ [.wb],
   [.wb] ++ litsi "KM" ++ [.wb],
   [.wb] ++ litsi "TEL" ++ [.wb],
   [.wb] ++ litsi "FAX" ++ [.wb],
   [.wb] ++ litsi "CP" ++ [.wb],
   [.wb] ++ litsi "ZARAGOZA" ++ [.wb],
   [.wb] ++ litsi "ESPAÑA" ++ [.wb]]

/-- `\bN[IF]{1,2}\b\s*[:#]?\s*[A-Z0-9\-\.]+` with `re.IGNORECASE`
(`main.py` line 348). -/
def nifTokenPat : List RTok :=
  [.wb, liti1 'N', .cls (.oneOfi ['I', 'F']) 1 (some 2) false, .wb, wsStar,
   clsOpt (.oneOf [':', '#']), wsStar,
   .cls (.union (.rngi 'A' 'Z') (.union .digit (.oneOf ['-', '.']))) 1 none false]

/-- `main.py` `_clean_company_line` (lines 347–354): delete NIF tokens,
truncate at the first comma or period, truncate at each address token,
strip. -/
def _clean_company_line (s : PyStr) : PyStr :=
  let s := reSubEmpty nifTokenPat s
  let s :=
    match s.findIdx? (fun c => c == ',' || c == '.') with
    | some i => s.take i
    | none => s
  let s := ADDRESS_TOKENS.foldl
    (fun acc tok => reSubEmpty (tok ++ [clsStar .dotAny, .eol]) acc) s
  pyStrip s

/-- Python substring containment (`needle in hay`). -/
def isSubstr (needle : PyStr) : PyStr → Bool
  | [] => needle.isEmpty
  | c :: rest => needle.isPrefixOf (c :: rest) || isSubstr needle rest

/-- `detect_brand` (`main.py` lines 379–383). -/
def detect_brand (textUp : PyStr) : Option PyStr :=
  (KNOWN_VATS_BY_BRAND.find? (fun e => isSubstr e.1 textUp)).map (fun e => e.1)

/-- The `is_client_line` predicate of `find_company` (lines 419–424). -/
def is_client_line (upStr : PyStr) : Bool :=
  CLIENT_NAME_KEYWORDS.any (fun k => isSubstr k upStr) ||
    CLIENT_IDS.any (fun cid => isSubstr cid upStr)

/-- The `good_company_line` predicate of `find_company` (lines 426–434). -/
def good_company_line (s : PyStr) : Bool :=
  let us := pyUpper s
  if is_client_line us then false
  else if LEGAL_SUFFIXES.any (fun suf => reTest suf us) then true
  else if KNOWN_VENDOR_HINTS.any (fun h => isSubstr h us) then true
  else false

/-- Priority key of the general VAT heuristic
(`2 if re.match(r"^[A-HJNPQRSUVW]", v) else 1`, line 412). -/
def vatKey (v : PyStr) : ℕ :=
  match v with
  | c :: _ => if (pys "ABCDEFGHJNPQRSUVW").contains c then 2 else 1
  | [] => 1

/-- The supplier tax ID selected by steps 1–3 of `find_company` (lines
397–414), before overrides: brand-catalog preference first, then the
stable descending sort by `vatKey`. -/
def supplierVatPre (text : PyStr) : Option PyStr :=
  let up := pyUpper text
  let vats := find_vat_candidates text
  let sv0 : Option PyStr :=
    match detect_brand up with
    | some b =>
      if vats.isEmpty then none
      else
        let allowed :=
          ((KNOWN_VATS_BY_BRAND.find? (fun e => e.1 == b)).map
            (fun e => e.2)).getD []
        match vats.filter (fun v => allowed.contains v) with
        | p :: _ => some p
        | [] => none
    | none => none
  match sv0 with
  | some v => some v
  | none =>
    if vats.isEmpty then none
    else
      match sortDescBy (fun a b => decide (vatKey b ≤ vatKey a)) vats with
      | v :: _ => some v
      | [] => none

/-- First index of `needle` in `hay` (Python `str.find`, `none` for
`-1`). -/
def firstIdxOfSub (needle : PyStr) : PyStr → Option ℕ
  | [] => if needle.isEmpty then some 0 else none
  | c :: rest =>
    if needle.isPrefixOf (c :: rest) then some 0
    else (firstIdxOfSub needle rest).map (fun i => i + 1)

/-- The company-line loop of `find_company`: first line that cleans up to
a good company line of length at least 4. -/
def findCompanyLine (ls : List PyStr) : Option PyStr :=
  ls.findSome? (fun raw =>
    let cand := strip_accents_punct raw
    if good_company_line cand && decide (4 ≤ cand.length) then
      some (_clean_company_line cand)
    else none)

/-- The first matching vendor override, as `(name, forced id?)`
(the `for pat, name, cif_fix in VENDOR_OVERRIDES ... break` loop of
lines 390–395). -/
def vendorOverrideHit (up : PyStr) : Option (PyStr × Option PyStr) :=
  (VENDOR_OVERRIDES.find? (fun e => reTest e.1 up)).map (fun e => (e.2.1, e.2.2))

/-- `main.py` `find_company` (lines 386–458): `(company, supplier_vat)`. -/
def find_company (text : PyStr) : Option PyStr × Option PyStr :=
  let up := pyUpper text
  let ovr := vendorOverrideHit up
  let sv := supplierVatPre text
  let companyA : Option PyStr :=
    match sv with
    | some v =>
      let window :=
        match firstIdxOfSub v up with
        | some idx => (text.drop (idx - 400)).take ((idx + 400) - (idx - 400))
        | none => text
      findCompanyLine (pySplitlines window)
    | none => none
  let companyB : Option PyStr :=
    if (match companyA with | some c => c.isEmpty | none => true) then
      match findCompanyLine (strippedLines text) with
      | some c => some c
      | none => companyA
    else companyA
  let company :=
    match ovr with
    | some (name, _) => if !name.isEmpty then some name else companyB
    | none => companyB
  let supplierVat :=
    match ovr with
    | some (_, some c) => some c
    | _ => sv
  (company, supplierVat)

/-!
## Claim C2 — vendor override precedence
-/

/-- Every override name in the catalog is non-empty (so the Python
truthiness test `if company_override:` always fires on a hit). -/
theorem vendor_override_names_nonempty :
    (VENDOR_OVERRIDES.map (fun e => e.2.1)).all (fun n => !n.isEmpty) = true := by
  decide

/-- C2: whenever one of the hard-override brand patterns matches the
uppercased text, the resolved company name is that override's canonical
name regardless of what the candidate scan and line search produced, and
the resolved tax ID is the override's forced ID when it specifies one,
and otherwise exactly the ID selected from the text by steps 1–3. -/
theorem c2_find_company_override (text : PyStr) (name : PyStr)
    (cfix : Option PyStr)
    (hov : vendorOverrideHit (pyUpper text) = some (name, cfix)) :
    (find_company text).1 = some name ∧
    (cfix = none → (find_company text).2 = supplierVatPre text) ∧
    (∀ c, cfix = some c → (find_company text).2 = some c) := by
  have hname : name.isEmpty = false := by
    unfold vendorOverrideHit at hov
    rw [Option.map_eq_some'] at hov
    obtain ⟨e, hfind, heq⟩ := hov
    have hmem := List.mem_of_find?_eq_some hfind
    have hall := List.all_eq_true.mp vendor_override_names_nonempty
    have := hall e.2.1 (List.mem_map_of_mem (fun e => e.2.1) hmem)
    rw [Bool.not_eq_true'] at this
    have hne : name = e.2.1 := by
      have := congrArg Prod.fst heq
      simp at this
      exact this.symm
    rw [hne]
    exact this
  refine ⟨?_, ?_, ?_⟩
  · show (match vendorOverrideHit (pyUpper text) with
      | some (n, _) => if !n.isEmpty then some n else _
      | none => _) = some name
    rw [hov]
    simp [hname]
  · intro hc
    subst hc
    show (match vendorOverrideHit (pyUpper text) with
      | some (_, some c) => some c
      | _ => supplierVatPre text) = _
    rw [hov]
  · intro c hc
    subst hc
    show (match vendorOverrideHit (pyUpper text) with
      | some (_, some c) => some c
      | _ => supplierVatPre text) = _
    rw [hov]

/-- C2 (witness): a text matching the ALCAMPO override (forced ID) and a
text matching the AMAZON override (ID not imposed), with different
in-text identifiers. -/
theorem c2_witness :
    (find_company (pys "Factura ALCAMPO\nCIF: B12345678")).1 =
      some (pys "ALCAMPO S.A.") ∧
    (find_company (pys "Factura ALCAMPO\nCIF: B12345678")).2 =
      some (pys "A28581882") ∧
    (find_company (pys "AMAZON EU\nVAT: ESW0184081H")).1 =
      some (pys "AMAZON (ver detalle en factura)") ∧
    (find_company (pys "AMAZON EU\nVAT: ESW0184081H")).2 =
      supplierVatPre (pys "AMAZON EU\nVAT: ESW0184081H") := by
  have h1 := c2_find_company_override (pys "Factura ALCAMPO\nCIF: B12345678")
    (pys "ALCAMPO S.A.") (some (pys "A28581882")) (by decide)
  have h2 := c2_find_company_override (pys "AMAZON EU\nVAT: ESW0184081H")
    (pys "AMAZON (ver detalle en factura)") none (by decide)
  exact ⟨h1.1, h1.2.2 _ rfl, h2.1, h2.2.1 rfl⟩

/-!
## Invoice number, orchestrator and the child-process boundary
(`main.py` lines 462–512 and 614–729)
-/

/-- `BAD_TOKENS` (`main.py` line 468). -/
def BAD_TOKENS : List PyStr :=
  [pys "FECHA", pys "NIF", pys "IF", pys "TEL", pys "TELEFONO"]

/-- The class `[A-Za-z0-9\-_/\.]`. -/
def invoiceCls : CC :=
  .union (.rng 'A' 'Z') (.union (.rng 'a' 'z') (.union .digit (.oneOf ['-', '_', '/', '.'])))

/-- The class `[ºo\.-:]` under `re.I`: the characters `º` and `o`, plus
the range `.`–`:` (codes 46–58, so `./0-9:`). -/
def invoiceNoCls : CC := .union (.oneOfi ['º', 'O']) (.rng '.' ':')

/-- `INVOICE_PATTERNS` (`main.py` lines 462–467), all with `re.I`. -/
def INVOICE_PATTERNS : List (List RTok) :=
  [[.wb] ++ litsi "FACTURA" ++
     [.alt [[wsPlus] ++ litsi "SIMPLIFICADA", []], wsStar,
      .alt [[liti1 'N', .cls invoiceNoCls 0 (some 1) false, wsStar], []]] ++
     grp 1 [.cls invoiceCls 1 none false],
   [.wb, liti1 'N', .cls invoiceNoCls 0 (some 1) false, wsStar] ++
     grp 1 [.cls invoiceCls 1 none false] ++ [wsStar] ++ litsi "FACTURA" ++ [.wb],
   [.wb] ++ litsi "NUM" ++
     [.alt [litsi "ERO", [lit1 '.'], [lit1 ':'], []], wsStar] ++
     grp 1 [.cls invoiceCls 1 none false],
   [.wb] ++ litsi "FA" ++ [wsStar, lit1 '-', wsStar] ++
     grp 1 [.cls (.union (.rng 'A' 'Z') (.union (.rng 'a' 'z')
       (.union .digit (.oneOf ['-'])))) 1 none false]]

/-- `main.py` `find_invoice_number` (lines 504–512). -/
def find_invoice_number (text : PyStr) : Option PyStr :=
  INVOICE_PATTERNS.findSome? (fun pat =>
    match reSearch pat text with
    | none => none
    | some m =>
      let cand := pyUpper (pyStrip (capStr text 1 m))
      if BAD_TOKENS.contains cand then none
      else some (pyStrip (capStr text 1 m)))

/-- ASCII lowercase map (enough for the brand names used by
`str.title()` here). -/
def pyLowerChar (c : Char) : Char :=
  if 'A' ≤ c && c ≤ 'Z' then Char.ofNat (c.toNat + 32) else c

/-- Python `str.title()`. -/
def pyTitleAux : Bool → PyStr → PyStr
  | _, [] => []
  | prevAlpha, c :: rest =>
    (if c.isAlpha && !prevAlpha then pyUpperChar c
     else if c.isAlpha then pyLowerChar c else c) :: pyTitleAux c.isAlpha rest

/-- Python `str.title()`. -/
def pyTitle (s : PyStr) : PyStr := pyTitleAux false s

/-- Python string truthiness of an optional string. -/
def truthyS : Option PyStr → Bool
  | none => false
  | some s => !s.isEmpty

/-- The text the orchestrator works on: the OCR text exactly when the
native text has fewer than 80 characters (`main.py` lines 632–643; the
two acquisition functions are I/O and enter as oracle arguments). -/
def innerText (nativeText ocrText : PyStr) : PyStr :=
  if nativeText.length < 80 then ocrText else nativeText

/-- Did the orchestrator take the OCR path? -/
def innerOcrUsed (nativeText : PyStr) : Bool := nativeText.length < 80

/-- The diagnostic notes assembled by `extract_records_from_pdf_inner`
(lines 656–678): the OCR flag, the multi-rate note, and the two
brand-catalog notes, joined by `"; "` after dropping empty parts. -/
def innerNotas (ocr_used : Bool) (text : PyStr) : PyStr :=
  let base := mainBaseFinal text
  let iva := mainIvaFinal text
  let pct := mainPct text
  let cif := (find_company text).2
  let brand := detect_brand (pyUpper text)
  let parts : List PyStr :=
    (if ocr_used then [pys "OCR"] else []) ++
    (if pct = none ∧ truthyQ base = true ∧ truthyQ iva = true then
      (match (parse_vat_rows_sum text).2.2 with
       | some nota => [nota]
       | none => [])
     else []) ++
    (match brand with
     | some b =>
       if (KNOWN_VATS_BY_BRAND.find? (fun e => e.1 == b)).isSome &&
           !(truthyS cif) then
         [pys "VAT " ++ pyTitle b ++ pys " no visible en documento (no forzado)"]
       else []
     | none => []) ++
    (match brand, cif with
     | some b, some c =>
       if (match KNOWN_VATS_BY_BRAND.find? (fun e => e.1 == b) with
           | some e => !c.isEmpty && !(e.2.contains c)
           | none => false) then
         [pys "VAT " ++ c ++ pys " no coincide con catálogo " ++ b ++ pys " (revisar)"]
       else []
     | _, _ => [])
  pyJoin (pys "; ") (parts.filter (fun n => !n.isEmpty))

/-- `main.py` `extract_records_from_pdf_inner` (lines 628–695), with the
file stem and the two acquired texts as arguments. -/
def extract_records_from_pdf_inner (stem : PyStr) (nativeText ocrText : PyStr) :
    List Row :=
  let text := innerText nativeText ocrText
  let ocr_used := innerOcrUsed nativeText
  let company := (find_company text).1
  let cif := (find_company text).2
  let fecha := parse_date_text_main text
  let number := find_invoice_number text
  let base := mainBaseFinal text
  let iva := mainIvaFinal text
  let pct := mainPct text
  let total :=
    match mainTotFinal text with
    | some t => some t
    | none =>
      match base, iva with
      | some b, some i => some (pyRound 2 (b + i))
      | _, _ => none
  [{ fecha_factura := fecha,
     numero_factura :=
       (match number with
        | some n => if n.isEmpty then stem else n
        | none => stem),
     empresa :=
       (match company with
        | some c => if c.isEmpty then none else some (strip_accents_punct c)
        | none => none),
     CIF :=
       (match cif with
        | none => none
        | some s => if s.isEmpty then some s else some (norm_cif s)),
     importe_base := base,
     pctIVA := pct,
     IVA := iva,
     importe_total := total,
     Notas := innerNotas ocr_used text }]

/-- The outcome of one isolated child run, as observed by the driver:
a timeout, a finished child whose one-slot queue yields nothing, or a
delivered `child_worker` result (`err` is the exception text when the
inner extraction raised; the `json.dumps`/`json.loads` hand-off is the
identity on rows). -/
inductive ChildOutcome where
  | timedOut
  | noData
  | delivered (err : Option PyStr) (nativeText ocrText : PyStr)

/-- `main.py` `child_worker` (lines 614–624): the inner extraction, or on
an exception a single error row named with the file's FULL name
(`p.name = stem ++ suffix`). -/
def child_worker (stem suffix : PyStr) (err : Option PyStr)
    (native ocr : PyStr) : List Row :=
  match err with
  | some e =>
    [{ numero_factura := stem ++ suffix, Notas := pys "Error: " ++ e }]
  | none => extract_records_from_pdf_inner stem native ocr

/-- `main.py` `run_child_extract` (lines 699–729): the timeout row, the
"Sin datos del hijo" row, or the delivered child result. -/
def run_child_extract (stem suffix : PyStr) (timeout_s : ℕ)
    (oc : ChildOutcome) : List Row :=
  match oc with
  | .timedOut =>
    [{ numero_factura := stem ++ suffix,
       Notas := pys "Timeout " ++ natToStr timeout_s ++ pys "s" }]
  | .noData =>
    [{ numero_factura := stem ++ suffix, Notas := pys "Sin datos del hijo" }]
  | .delivered err native ocr => child_worker stem suffix err native ocr

/-!
## Claim C7 — OCR fallback trigger and marker
-/

theorem pyJoin_head_prefix (sep x : PyStr) (l : List PyStr) :
    ∃ t, pyJoin sep (x :: l) = x ++ t := by
  cases l with
  | nil => exact ⟨[], by simp [pyJoin]⟩
  | cons y ys => exact ⟨sep ++ pyJoin sep (y :: ys), by simp [pyJoin, List.append_assoc]⟩

/-- With the OCR flag set, the notes string starts with `"OCR"`. -/
theorem innerNotas_ocr_prefix (text : PyStr) :
    ∃ t, innerNotas true text = pys "OCR" ++ t := by
  unfold innerNotas
  simp only [if_true, List.singleton_append, List.cons_append, List.append_assoc]
  rw [List.filter_cons]
  simp only [show (!(pys "OCR").isEmpty) = true from rfl, if_true]
  exact pyJoin_head_prefix _ _ _

/-- C7: for every document whose native text is shorter than 80
characters, the orchestrator switches to the OCR-acquired text, and every
row it returns carries a notes field that starts with (hence contains)
the `"OCR"` marker. -/
theorem c7_ocr_trigger (stem native ocr : PyStr) (h : native.length < 80) :
    innerOcrUsed native = true ∧
    innerText native ocr = ocr ∧
    ∀ r ∈ extract_records_from_pdf_inner stem native ocr,
      ∃ t, r.Notas = pys "OCR" ++ t := by
  have hu : innerOcrUsed native = true := decide_eq_true h
  refine ⟨hu, ?_, ?_⟩
  · unfold innerText
    rw [if_pos h]
  · intro r hr
    simp only [extract_records_from_pdf_inner, List.mem_singleton] at hr
    subst hr
    show ∃ t, innerNotas (innerOcrUsed native) (innerText native ocr) = _
    rw [hu]
    exact innerNotas_ocr_prefix _

/-- C7 (witness): a 1-character native text triggers OCR and the note of
the emitted row starts with `"OCR"`. -/
theorem c7_witness :
    innerOcrUsed (pys "x") = true ∧
    innerText (pys "x") (pys "texto ocr") = pys "texto ocr" ∧
    ∃ r ∈ extract_records_from_pdf_inner (pys "doc") (pys "x") (pys "texto ocr"),
      ∃ t, r.Notas = pys "OCR" ++ t := by
  have h := c7_ocr_trigger (pys "doc") (pys "x") (pys "texto ocr") (by decide)
  refine ⟨h.1, h.2.1, ?_⟩
  have hmem : ({ numero_factura := pys "doc", Notas := pys "OCR" } : Row) ∈
      extract_records_from_pdf_inner (pys "doc") (pys "x") (pys "texto ocr") := by
    decide
  exact ⟨_, hmem, h.2.2 _ hmem⟩

/-!
## Claim C3 — isolation-boundary fallback guarantee
-/

/-- C3: the driver-side wrapper always returns at least one row; on
timeout exactly the single timeout row, and when nothing can be read from
the child's queue exactly the single "Sin datos del hijo" row. -/
theorem c3_isolation_fallback (stem suffix : PyStr) (t : ℕ) (oc : ChildOutcome) :
    1 ≤ (run_child_extract stem suffix t oc).length ∧
    (oc = .timedOut → run_child_extract stem suffix t oc =
      [{ numero_factura := stem ++ suffix,
         Notas := pys "Timeout " ++ natToStr t ++ pys "s" }]) ∧
    (oc = .noData → run_child_extract stem suffix t oc =
      [{ numero_factura := stem ++ suffix,
         Notas := pys "Sin datos del hijo" }]) := by
  refine ⟨?_, ?_, ?_⟩
  · cases oc with
    | timedOut => simp [run_child_extract]
    | noData => simp [run_child_extract]
    | delivered err native ocr =>
      cases err with
      | some e => simp [run_child_extract, child_worker]
      | none =>
        simp [run_child_extract, child_worker, extract_records_from_pdf_inner]
  · intro h; subst h; rfl
  · intro h; subst h; rfl

/-- C3 (witness): the timeout and no-data rows at a concrete file name
and a 60-second budget. -/
theorem c3_witness :
    run_child_extract (pys "doc") (pys ".pdf") 60 .timedOut =
      [{ numero_factura := pys "doc" ++ pys ".pdf",
         Notas := pys "Timeout " ++ natToStr 60 ++ pys "s" }] ∧
    run_child_extract (pys "doc") (pys ".pdf") 60 .noData =
      [{ numero_factura := pys "doc" ++ pys ".pdf",
         Notas := pys "Sin datos del hijo" }] :=
  ⟨(c3_isolation_fallback (pys "doc") (pys ".pdf") 60 .timedOut).2.1 rfl,
   (c3_isolation_fallback (pys "doc") (pys ".pdf") 60 .noData).2.2 rfl⟩

/-!
## Claim C10 — diagnostic rows use the full file name, fallback rows the
stem
-/

/-- C10: every diagnostic row (timeout, empty queue, child exception)
names the document by its full file name `stem ++ suffix`, while a
successful extraction that finds no invoice number falls back to the bare
stem — different identifiers whenever the file has an extension. -/
theorem c10_diagnostic_vs_fallback_names (stem suffix e native ocr : PyStr)
    (t : ℕ) :
    (∀ r ∈ run_child_extract stem suffix t .timedOut,
      r.numero_factura = stem ++ suffix) ∧
    (∀ r ∈ run_child_extract stem suffix t .noData,
      r.numero_factura = stem ++ suffix) ∧
    (∀ r ∈ run_child_extract stem suffix t (.delivered (some e) native ocr),
      r.numero_factura = stem ++ suffix) ∧
    (find_invoice_number (innerText native ocr) = none →
      ∀ r ∈ extract_records_from_pdf_inner stem native ocr,
        r.numero_factura = stem) ∧
    (suffix ≠ [] → stem ++ suffix ≠ stem) := by
  refine ⟨?_, ?_, ?_, ?_, ?_⟩
  · intro r hr
    simp only [run_child_extract, List.mem_singleton] at hr
    subst hr; rfl
  · intro r hr
    simp only [run_child_extract, List.mem_singleton] at hr
    subst hr; rfl
  · intro r hr
    simp only [run_child_extract, child_worker, List.mem_singleton] at hr
    subst hr; rfl
  · intro hnum r hr
    simp only [extract_records_from_pdf_inner, List.mem_singleton] at hr
    subst hr
    show (match find_invoice_number (innerText native ocr) with
      | some n => if n.isEmpty then stem else n
      | none => stem) = stem
    rw [hnum]
  · intro hs heq
    have hlen := congrArg List.length heq
    rw [List.length_append] at hlen
    have : suffix.length = 0 := by omega
    exact hs (List.length_eq_zero.mp this)

/-- C10 (witness): with stem `"doc"` and extension `".pdf"` the
identifiers differ, and a concrete text with no invoice number yields a
row named by the bare stem. -/
theorem c10_witness :
    (pys "doc" ++ pys ".pdf" ≠ pys "doc") ∧
    ∃ r ∈ extract_records_from_pdf_inner (pys "doc") (pys "") (pys "x"),
      r.numero_factura = pys "doc" := by
  have h := c10_diagnostic_vs_fallback_names (pys "doc") (pys ".pdf") (pys "e")
    (pys "") (pys "x") 60
  refine ⟨h.2.2.2.2 (by decide), ?_⟩
  have hmem : ({ numero_factura := pys "doc", Notas := pys "OCR" } : Row) ∈
      extract_records_from_pdf_inner (pys "doc") (pys "") (pys "x") := by decide
  exact ⟨_, hmem, h.2.2.2.1 (by decide) _ hmem⟩

/-!
## Claim C4 — total derivation round trip
-/

/-- C4 (counterexample): in the generic parser, a derived total is NOT
always `round(base + tax, 2)`: when rounding pushes the derived value
below the base, it is recomputed from the rate.  Here base `0.051` and
tax `0.0005` derive `round(0.0515, 2) = 0.05 < base`, which the parser
replaces by `round(0.051 × 1.21, 2) = 0.06`. -/
theorem c4_counterexample :
    gpTotLabel (pys "BASE IMPONIBLE 0,051\nIVA 0,0005\n21 %") = none ∧
    genericParse (pys "BASE IMPONIBLE 0,051\nIVA 0,0005\n21 %") (pys "f") =
      [{ numero_factura := pys "f", importe_base := some (51 / 1000 : ℚ),
         pctIVA := some (21 / 100 : ℚ), IVA := some (1 / 2000 : ℚ),
         importe_total := some (6 / 100 : ℚ), Notas := [] }] ∧
    pyRound 2 ((51 / 1000 : ℚ) + (1 / 2000 : ℚ)) = (5 / 100 : ℚ) ∧
    (6 / 100 : ℚ) ≠ (5 / 100 : ℚ) := by
  refine ⟨by decide, by decide, by decide, by decide⟩

/-- C4 (amended): when the total was not found verbatim and both the tax
base and the tax amount are present, the emitted `total_amount` is
`round(tax_base + tax_amount, 2)` — unconditionally in the `main.py`
amount pipeline and at the orchestrator row level, and in the generic
parser provided that derived value is not strictly below the base (if it
is, the parser recomputes the total from the rate or tax instead). -/
theorem c4_total_roundtrip :
    (∀ text stem b i, gpTotLabel text = none → gpBase text = some b →
      gpIvaGuarded text = some i → b ≤ pyRound 2 (b + i) →
      ∀ r ∈ genericParse text stem,
        r.importe_total = some (pyRound 2 (b + i))) ∧
    (∀ text b i, mainTotLabel text = none → mainBaseFinal text = some b →
      mainIvaFinal text = some i →
      mainTotFinal text = some (pyRound 2 (b + i))) ∧
    (∀ stem native ocr b i,
      mainTotLabel (innerText native ocr) = none →
      mainBaseFinal (innerText native ocr) = some b →
      mainIvaFinal (innerText native ocr) = some i →
      ∀ r ∈ extract_records_from_pdf_inner stem native ocr,
        r.importe_total = some (pyRound 2 (b + i))) := by
  have hmain : ∀ text b i, mainTotLabel text = none →
      mainBaseFinal text = some b → mainIvaFinal text = some i →
      mainTotFinal text = some (pyRound 2 (b + i)) := by
    intro text b i htot hb hi
    unfold mainTotFinal
    rw [htot, hb, hi]
  refine ⟨?_, hmain, ?_⟩
  · intro text stem b i htot hb hi hle r hr
    rw [genericParse, List.mem_singleton] at hr
    subst hr
    have hder : gpTotDerived text = some (pyRound 2 (b + i)) := by
      unfold gpTotDerived
      rw [htot, hb, hi]
    show gpTotFinal text = _
    have hcond : ¬ (b ≠ 0 ∧ pyRound 2 (b + i) ≠ 0 ∧ pyRound 2 (b + i) < b) := by
      rintro ⟨-, -, hlt⟩
      exact absurd hle (not_le.mpr hlt)
    unfold gpTotFinal
    simp only [hb, hder]
    rw [if_neg hcond]
  · intro stem native ocr b i htot hb hi r hr
    simp only [extract_records_from_pdf_inner, List.mem_singleton] at hr
    subst hr
    show (match mainTotFinal (innerText native ocr) with
      | some t => some t
      | none =>
        match mainBaseFinal (innerText native ocr),
            mainIvaFinal (innerText native ocr) with
        | some b, some i => some (pyRound 2 (b + i))
        | _, _ => none) = _
    rw [hmain _ _ _ htot hb hi]

/-- C4 (witness): the round trip at a concrete generic-parser text and at
the same text through the `main.py` pipeline. -/
theorem c4_witness :
    (∃ r ∈ genericParse (pys "BASE IMPONIBLE 100,00\nCUOTA IVA 21,50") (pys "f"),
      r.importe_total = some (pyRound 2 ((100 : ℚ) + 43 / 2))) ∧
    mainTotFinal (pys "BASE IMPONIBLE 100,00\nCUOTA IVA 21,50") =
      some (pyRound 2 ((100 : ℚ) + 43 / 2)) := by
  constructor
  · have hmem :
        ({ numero_factura := pys "f", importe_base := some 100,
           pctIVA := some (43 / 200 : ℚ), IVA := some (43 / 2 : ℚ),
           importe_total := some (243 / 2 : ℚ), Notas := [] } : Row) ∈
          genericParse (pys "BASE IMPONIBLE 100,00\nCUOTA IVA 21,50") (pys "f") := by
      decide
    exact ⟨_, hmem, (c4_total_roundtrip.1 _ (pys "f") 100 (43 / 2)
      (by decide) (by decide) (by decide) (by decide)) _ hmem⟩
  · exact c4_total_roundtrip.2.1 _ 100 (43 / 2) (by decide) (by decide) (by decide)

end Facturas
